import Mathlib

/-!
# dockyards-rbac: the cluster reconciler and its RBAC workload payload

A shallow embedding of `controllers/dockyardscluster_controller.go` and
`controllers/types.go`.  Go library calls the controller makes
(`encoding/json`, `strings.ToLower`, `controllerutil.CreateOrPatch`,
`metav1.HasAnnotation`, `client.IgnoreNotFound`) are embedded as executable
definitions; constants of the `dockyardsv1` and `dyconfig` packages, which are
not part of this repository, are fields of a parameter record.
-/

namespace DockyardsRBAC

/-! ## encoding/json -/

/-- JSON documents.  Numbers are outside the fragment the controller produces
and are not represented. -/
inductive JSONValue where
  | null : JSONValue
  | bool : Bool → JSONValue
  | str : String → JSONValue
  | arr : List JSONValue → JSONValue
  | obj : List (String × JSONValue) → JSONValue

/-- Lower-case hexadecimal digit of a value below 16 (`hex[b]` in encoding/json). -/
def hexDigit (n : Nat) : Char :=
  if n < 10 then Char.ofNat (48 + n) else Char.ofNat (87 + n)

/-- Escaping of one character by `json.Marshal` (HTML escaping on, the default):
quote and backslash get a backslash, the control characters with a short form
use it, other characters below 0x20, the characters `<`, `>`, `&` and the line
separators U+2028, U+2029 become a `\u` escape with four hex digits. -/
def escapeChar (c : Char) : List Char :=
  if c = '"' then ['\\', '"']
  else if c = '\\' then ['\\', '\\']
  else if c = Char.ofNat 8 then ['\\', 'b']
  else if c = Char.ofNat 12 then ['\\', 'f']
  else if c = '\n' then ['\\', 'n']
  else if c = '\r' then ['\\', 'r']
  else if c = '\t' then ['\\', 't']
  else if c.toNat < 32 ∨ c = '<' ∨ c = '>' ∨ c = '&' ∨ c.toNat = 0x2028 ∨ c.toNat = 0x2029 then
    ['\\', 'u', hexDigit (c.toNat / 4096 % 16), hexDigit (c.toNat / 256 % 16),
      hexDigit (c.toNat / 16 % 16), hexDigit (c.toNat % 16)]
  else [c]

/-- A quoted, escaped JSON string. -/
def encodeString (s : String) : List Char :=
  '"' :: (s.data.flatMap escapeChar ++ ['"'])

/-- Strict lexicographic order of keys by code point, which is the byte order
of their UTF-8 encodings (`strings.Compare`). -/
def lessChars : List Char → List Char → Bool
  | _, [] => false
  | [], _ :: _ => true
  | a :: as, b :: bs =>
    if a.toNat < b.toNat then true
    else if b.toNat < a.toNat then false
    else lessChars as bs

/-- Insertion of an object member by key, used to sort the keys of a Go map. -/
def insertMember (m : String × List Char) : List (String × List Char) → List (String × List Char)
  | [] => [m]
  | x :: xs => if lessChars m.1.data x.1.data then m :: x :: xs else x :: insertMember m xs

/-- Members sorted by key: `json.Marshal` writes a `map[string]T` with its keys sorted. -/
def sortMembers : List (String × List Char) → List (String × List Char)
  | [] => []
  | x :: xs => insertMember x (sortMembers xs)

/-- Comma-separated concatenation. -/
def joinComma : List (List Char) → List Char
  | [] => []
  | [x] => x
  | x :: y :: rest => x ++ ',' :: joinComma (y :: rest)

/-- One encoded member `"key":value`. -/
def encodeMember (m : String × List Char) : List Char :=
  encodeString m.1 ++ ':' :: m.2

mutual
/-- Compact encoding of a document, as `json.Marshal` writes maps and slices. -/
def encodeValue : JSONValue → List Char
  | .null => ['n', 'u', 'l', 'l']
  | .bool true => ['t', 'r', 'u', 'e']
  | .bool false => ['f', 'a', 'l', 's', 'e']
  | .str s => encodeString s
  | .arr vs => '[' :: (joinComma (encodeElems vs) ++ [']'])
  | .obj ms => '{' :: (joinComma ((sortMembers (encodeMembers ms)).map encodeMember) ++ ['}'])
/-- Encodings of the elements of an array. -/
def encodeElems : List JSONValue → List (List Char)
  | [] => []
  | v :: vs => encodeValue v :: encodeElems vs
/-- Keys and encoded values of the members of an object. -/
def encodeMembers : List (String × JSONValue) → List (String × List Char)
  | [] => []
  | (k, v) :: ms => (k, encodeValue v) :: encodeMembers ms
end

/-- The bytes of a document built from maps, slices and strings. -/
def encodeDocument (v : JSONValue) : String := String.mk (encodeValue v)

/-- Value of a hexadecimal digit. -/
def hexVal (c : Char) : Option Nat :=
  if 48 ≤ c.toNat ∧ c.toNat ≤ 57 then some (c.toNat - 48)
  else if 97 ≤ c.toNat ∧ c.toNat ≤ 102 then some (c.toNat - 87)
  else if 65 ≤ c.toNat ∧ c.toNat ≤ 70 then some (c.toNat - 55)
  else none

/-- The character a one-letter escape stands for. -/
def unescape (e : Char) : Option Char :=
  if e = '"' then some '"'
  else if e = '\\' then some '\\'
  else if e = '/' then some '/'
  else if e = 'b' then some (Char.ofNat 8)
  else if e = 'f' then some (Char.ofNat 12)
  else if e = 'n' then some '\n'
  else if e = 'r' then some '\r'
  else if e = 't' then some '\t'
  else none

/-- The Unicode replacement character U+FFFD. -/
def replacementChar : Char := Char.ofNat 0xFFFD

/-- Where the decoder stands inside a JSON string: in the text, after a
backslash, or in the four hex digits of a `\u` escape (digits read, value so
far).  Each state carries a high surrogate read just before, if any, which
waits for its low surrogate. -/
inductive StringState where
  | text : Option Nat → StringState
  | esc : Option Nat → StringState
  | hex : Option Nat → Nat → Nat → StringState
deriving DecidableEq, Repr

/-- Outcome of reading one character of a string. -/
inductive StringStep where
  | done : List Char → StringStep
  | fail : StringStep
  | next : StringState → List Char → StringStep

/-- The decoded characters with U+FFFD written for a pending high surrogate
that found no low surrogate. -/
def flushPending (pending : Option Nat) (acc : List Char) : List Char :=
  match pending with
  | some _ => replacementChar :: acc
  | none => acc

/-- The end of a `\u` escape with value `rr` (`unquote` in encoding/json): a
low surrogate joins a pending high surrogate, a high surrogate waits, a lone
surrogate becomes U+FFFD, any other value is the character itself. -/
def finishEscape (pending : Option Nat) (rr : Nat) (acc : List Char) : StringStep :=
  match pending with
  | some hi =>
    if 0xDC00 ≤ rr ∧ rr < 0xE000 then
      .next (.text none) (Char.ofNat ((hi - 0xD800) * 1024 + (rr - 0xDC00) + 0x10000) :: acc)
    else if 0xD800 ≤ rr ∧ rr < 0xDC00 then .next (.text (some rr)) (replacementChar :: acc)
    else .next (.text none) (Char.ofNat rr :: replacementChar :: acc)
  | none =>
    if 0xD800 ≤ rr ∧ rr < 0xDC00 then .next (.text (some rr)) acc
    else if 0xDC00 ≤ rr ∧ rr < 0xE000 then .next (.text none) (replacementChar :: acc)
    else .next (.text none) (Char.ofNat rr :: acc)

/-- One character of a string read in a state. -/
def stringStep (st : StringState) (c : Char) (acc : List Char) : StringStep :=
  match st with
  | .text pending =>
    if c = '\\' then .next (.esc pending) acc
    else if c = '"' then .done (flushPending pending acc)
    else if c.toNat < 32 then .fail
    else .next (.text none) (c :: flushPending pending acc)
  | .esc pending =>
    if c = 'u' then .next (.hex pending 0 0) acc
    else
      match unescape c with
      | some x => .next (.text none) (x :: flushPending pending acc)
      | none => .fail
  | .hex pending k val =>
    match hexVal c with
    | none => .fail
    | some d =>
      if k < 3 then .next (.hex pending (k + 1) (val * 16 + d)) acc
      else finishEscape pending (val * 16 + d) acc

/-- The characters of a JSON string read from a state up to the closing quote. -/
def scanString : StringState → List Char → List Char → Option (List Char × List Char)
  | _, [], _ => none
  | st, c :: rest, acc =>
    match stringStep st c acc with
    | .done out => some (out.reverse, rest)
    | .fail => none
    | .next st1 acc1 => scanString st1 rest acc1

/-- Body of a JSON string after its opening quote, up to the closing quote:
returns the decoded characters and the rest of the input. -/
def parseStringBody (cs : List Char) (acc : List Char) : Option (List Char × List Char) :=
  scanString (.text none) cs acc

/-- Skips JSON white space. -/
def skipWs : List Char → List Char
  | [] => []
  | c :: rest => if c = ' ' ∨ c = '\t' ∨ c = '\n' ∨ c = '\r' then skipWs rest else c :: rest

/-- Elements of an array after the first value position, with `p` the parser of a value. -/
def parseElems (p : List Char → Option (JSONValue × List Char)) :
    Nat → List Char → List JSONValue → Option (List JSONValue × List Char)
  | 0, _, _ => none
  | n + 1, cs, acc =>
    match p cs with
    | none => none
    | some (v, rest) =>
      match skipWs rest with
      | c :: rest2 =>
        if c = ',' then parseElems p n rest2 (v :: acc)
        else if c = ']' then some ((v :: acc).reverse, rest2)
        else none
      | [] => none

/-- Members of an object, with `p` the parser of a value. -/
def parseMembers (p : List Char → Option (JSONValue × List Char)) :
    Nat → List Char → List (String × JSONValue) → Option (List (String × JSONValue) × List Char)
  | 0, _, _ => none
  | n + 1, cs, acc =>
    match skipWs cs with
    | q :: rest =>
      if q = '"' then
        match parseStringBody rest [] with
        | none => none
        | some (k, rest1) =>
          match skipWs rest1 with
          | colon :: rest2 =>
            if colon = ':' then
              match p rest2 with
              | none => none
              | some (v, rest3) =>
                match skipWs rest3 with
                | c :: rest4 =>
                  if c = ',' then parseMembers p n rest4 ((String.mk k, v) :: acc)
                  else if c = '}' then some (((String.mk k, v) :: acc).reverse, rest4)
                  else none
                | [] => none
            else none
          | [] => none
      else none
    | [] => none

/-- A JSON value at the head of the input, nesting bounded by the fuel. -/
def parseValue : Nat → List Char → Option (JSONValue × List Char)
  | 0, _ => none
  | n + 1, cs =>
    match skipWs cs with
    | [] => none
    | c :: rest =>
      if c = '"' then
        match parseStringBody rest [] with
        | some (s, r) => some (JSONValue.str (String.mk s), r)
        | none => none
      else if c = '[' then
        match skipWs rest with
        | [] => none
        | d :: rest1 =>
          if d = ']' then some (JSONValue.arr [], rest1)
          else
            match parseElems (parseValue n) n rest [] with
            | some (vs, r) => some (JSONValue.arr vs, r)
            | none => none
      else if c = '{' then
        match skipWs rest with
        | [] => none
        | d :: rest1 =>
          if d = '}' then some (JSONValue.obj [], rest1)
          else
            match parseMembers (parseValue n) n rest [] with
            | some (ms, r) => some (JSONValue.obj ms, r)
            | none => none
      else if c = 't' then
        match rest with
        | 'r' :: 'u' :: 'e' :: r => some (JSONValue.bool true, r)
        | _ => none
      else if c = 'f' then
        match rest with
        | 'a' :: 'l' :: 's' :: 'e' :: r => some (JSONValue.bool false, r)
        | _ => none
      else if c = 'n' then
        match rest with
        | 'u' :: 'l' :: 'l' :: r => some (JSONValue.null, r)
        | _ => none
      else none

/-- The document a byte string holds, if it is well-formed JSON of the fragment
with nothing but white space after it.  The fuel is one more than the length of
the input, which bounds both the nesting and the number of elements. -/
def parseDocument (raw : String) : Option JSONValue :=
  match parseValue (raw.length + 1) raw.data with
  | some (v, rest) => if skipWs rest = [] then some v else none
  | none => none

/-! ## controllers/types.go and decoding into it -/

/-- The type `rbacv1.RoleRef` (k8s.io/api/rbac/v1). -/
structure rbacv1.RoleRef where
  APIGroup : String
  Kind : String
  Name : String
deriving DecidableEq, Repr, Inhabited

/-- The type `rbacv1.Subject` (k8s.io/api/rbac/v1). -/
structure rbacv1.Subject where
  Kind : String
  APIGroup : String
  Name : String
  Namespace : String
deriving DecidableEq, Repr, Inhabited

/-- The type `RoleBinding` of types.go; a slice is `none` when nil. -/
structure RoleBinding where
  BindingName : String
  RoleRef : rbacv1.RoleRef
  Subjects : Option (List rbacv1.Subject)
deriving DecidableEq, Repr, Inhabited

/-- The type `RBACWorkloadInput` of types.go; a slice is `none` when nil. -/
structure RBACWorkloadInput where
  ClusterRoleBindings : Option (List RoleBinding)
  RoleBindings : Option (List RoleBinding)
deriving DecidableEq, Repr, Inhabited

/-- ASCII lower-casing of a character list. -/
def lowerChars (cs : List Char) : List Char := cs.map Char.toLower

/-- Whether an object key names the struct field with the given (lower-case)
tag: `json.Unmarshal` accepts a key that matches the tag up to case. -/
def keyIs (key : String) (tag : String) : Bool := lowerChars key.data == tag.data

/-- Decoding into a string field: a string is stored, null leaves the field as it is. -/
def decodeString (v : JSONValue) (cur : String) : Option String :=
  match v with
  | .str s => some s
  | .null => some cur
  | _ => none

/-- Decoding of the members of an object into a struct, one member after the
other; `field` stores one member and fails on a value of the wrong type. -/
def decodeFields {T : Type} (field : String → JSONValue → T → Option T) :
    List (String × JSONValue) → T → Option T
  | [], t => some t
  | (k, v) :: ms, t =>
    match field k v t with
    | some t1 => decodeFields field ms t1
    | none => none

/-- Decoding into a struct: an object fills the fields, null leaves the struct as it is. -/
def decodeStruct {T : Type} (field : String → JSONValue → T → Option T)
    (v : JSONValue) (cur : T) : Option T :=
  match v with
  | .obj ms => decodeFields field ms cur
  | .null => some cur
  | _ => none

/-- Decoding of every element of an array with `elem`. -/
def decodeElems {T : Type} (elem : JSONValue → Option T) : List JSONValue → Option (List T)
  | [] => some []
  | v :: vs =>
    match elem v, decodeElems elem vs with
    | some t, some ts => some (t :: ts)
    | _, _ => none

/-- Decoding into a slice field: an array gives a slice of freshly decoded
elements, null gives the nil slice. -/
def decodeSlice {T : Type} (elem : JSONValue → Option T) (v : JSONValue) : Option (Option (List T)) :=
  match v with
  | .arr vs => (decodeElems elem vs).map some
  | .null => some none
  | _ => none

/-- One member of an object decoded into a `rbacv1.RoleRef`; unknown keys are ignored. -/
def rbacv1.RoleRef.field (k : String) (v : JSONValue) (r : rbacv1.RoleRef) : Option rbacv1.RoleRef :=
  if keyIs k "apigroup" then (decodeString v r.APIGroup).map (fun s => { r with APIGroup := s })
  else if keyIs k "kind" then (decodeString v r.Kind).map (fun s => { r with Kind := s })
  else if keyIs k "name" then (decodeString v r.Name).map (fun s => { r with Name := s })
  else some r

/-- One member of an object decoded into a `rbacv1.Subject`; unknown keys are ignored. -/
def rbacv1.Subject.field (k : String) (v : JSONValue) (r : rbacv1.Subject) : Option rbacv1.Subject :=
  if keyIs k "kind" then (decodeString v r.Kind).map (fun s => { r with Kind := s })
  else if keyIs k "apigroup" then (decodeString v r.APIGroup).map (fun s => { r with APIGroup := s })
  else if keyIs k "name" then (decodeString v r.Name).map (fun s => { r with Name := s })
  else if keyIs k "namespace" then (decodeString v r.Namespace).map (fun s => { r with Namespace := s })
  else some r

/-- One member of an object decoded into a `RoleBinding`, by the json tags of types.go. -/
def RoleBinding.field (k : String) (v : JSONValue) (r : RoleBinding) : Option RoleBinding :=
  if keyIs k "bindingname" then (decodeString v r.BindingName).map (fun s => { r with BindingName := s })
  else if keyIs k "roleref" then
    (decodeStruct rbacv1.RoleRef.field v r.RoleRef).map (fun x => { r with RoleRef := x })
  else if keyIs k "subjects" then
    (decodeSlice (fun e => decodeStruct rbacv1.Subject.field e default) v).map
      (fun x => { r with Subjects := x })
  else some r

/-- One member of an object decoded into a `RBACWorkloadInput`, by the json tags of types.go. -/
def RBACWorkloadInput.field (k : String) (v : JSONValue) (r : RBACWorkloadInput) :
    Option RBACWorkloadInput :=
  if keyIs k "clusterrolebindings" then
    (decodeSlice (fun e => decodeStruct RoleBinding.field e default) v).map
      (fun x => { r with ClusterRoleBindings := x })
  else if keyIs k "rolebindings" then
    (decodeSlice (fun e => decodeStruct RoleBinding.field e default) v).map
      (fun x => { r with RoleBindings := x })
  else some r

/-- The call `json.Unmarshal(raw, &parsed)` with `parsed` a zero `RBACWorkloadInput`:
`none` when it returns an error. -/
def json.Unmarshal (raw : String) : Option RBACWorkloadInput :=
  match parseDocument raw with
  | some v => decodeStruct RBACWorkloadInput.field v default
  | none => none

/-! ## Kubernetes objects -/

/-- The type `metav1.OwnerReference`. -/
structure metav1.OwnerReference where
  APIVersion : String
  Kind : String
  Name : String
  UID : String
  Controller : Option Bool
  BlockOwnerDeletion : Option Bool
deriving DecidableEq, Repr, Inhabited

/-- The type `metav1.ObjectMeta`; a map is a list of key/value pairs, the
deletion timestamp is `none` when the pointer is nil and otherwise an instant
counted from the zero time. -/
structure metav1.ObjectMeta where
  Name : String
  GenerateName : String
  Namespace : String
  UID : String
  ResourceVersion : String
  DeletionTimestamp : Option Nat
  Labels : List (String × String)
  Annotations : List (String × String)
  OwnerReferences : List metav1.OwnerReference
  Finalizers : List String
deriving DecidableEq, Repr, Inhabited

/-- The method `(*metav1.Time).IsZero`: a nil pointer or the zero instant. -/
def metav1.IsZero (t : Option Nat) : Bool :=
  match t with
  | none => true
  | some n => n == 0

/-- The function `metav1.HasAnnotation`: the key is in the annotations, with any value. -/
def metav1.HasAnnotation (obj : metav1.ObjectMeta) (ann : String) : Bool :=
  obj.Annotations.any (fun kv => kv.1 == ann)

/-- The type `corev1.TypedObjectReference`. -/
structure corev1.TypedObjectReference where
  APIGroup : Option String
  Kind : String
  Name : String
  Namespace : Option String
deriving DecidableEq, Repr, Inhabited

/-- The type `apiextensionsv1.JSON`: raw JSON bytes. -/
structure apiextensionsv1.JSON where
  Raw : String
deriving DecidableEq, Repr, Inhabited

/-- The spec of a `dockyardsv1.Workload`: the fields the controller writes. -/
structure dockyardsv1.WorkloadSpec where
  ClusterComponent : Bool
  TargetNamespace : String
  Provenience : String
  WorkloadTemplateRef : Option corev1.TypedObjectReference
  Input : Option apiextensionsv1.JSON
deriving DecidableEq, Repr, Inhabited

/-- The type `dockyardsv1.Workload`. -/
structure dockyardsv1.Workload where
  ObjectMeta : metav1.ObjectMeta
  Spec : dockyardsv1.WorkloadSpec
deriving DecidableEq, Repr, Inhabited

/-- The type `dockyardsv1.Cluster`; its zero value is `default`. -/
structure dockyardsv1.Cluster where
  ObjectMeta : metav1.ObjectMeta
deriving DecidableEq, Repr, Inhabited

/-- The type `dockyardsv1.Organization`. -/
structure dockyardsv1.Organization where
  ObjectMeta : metav1.ObjectMeta
deriving DecidableEq, Repr, Inhabited

/-- The type `types.NamespacedName`, the identity of an object and of a request. -/
structure NamespacedName where
  Namespace : String
  Name : String
deriving DecidableEq, Repr, Inhabited

/-- The function `client.ObjectKeyFromObject`. -/
def client.ObjectKeyFromObject (m : metav1.ObjectMeta) : NamespacedName :=
  { Namespace := m.Namespace, Name := m.Name }

/-- Constants of the packages `dockyardsv1` and `dyconfig` that the controller
names; the packages are not part of this repository. -/
structure Constants where
  AnnotationSkipRemediation : String
  LabelClusterName : String
  GroupVersion : String
  ClusterKind : String
  WorkloadTemplateKind : String
  ProvenienceDockyards : String
  RoleReader : String
  RoleUser : String
  RoleSuperUser : String
  KeyPublicNamespace : String
deriving DecidableEq, Repr, Inhabited

/-- Errors the controller returns or passes on. -/
inductive Error where
  | notFound : Error
  | alreadyExists : Error
  | api : String → Error
  | noConfigValue : String → Error
  | mutateKey : Error
deriving DecidableEq, Repr, Inhabited

/-- The function `client.IgnoreNotFound`: nil for nil and for a not-found error. -/
def client.IgnoreNotFound (err : Option Error) : Option Error :=
  match err with
  | some Error.notFound => none
  | e => e

/-- The type `ctrl.Result`. -/
structure Result where
  Requeue : Bool
  RequeueAfter : Nat
deriving DecidableEq, Repr, Inhabited

/-- The type `controllerutil.OperationResult`. -/
inductive OperationResult where
  | None : OperationResult
  | Created : OperationResult
  | Updated : OperationResult
  | UpdatedStatus : OperationResult
  | UpdatedStatusOnly : OperationResult
deriving DecidableEq, Repr, Inhabited

/-- The string of a `controllerutil.OperationResult`. -/
def OperationResult.toString : OperationResult → String
  | .None => "unchanged"
  | .Created => "created"
  | .Updated => "updated"
  | .UpdatedStatus => "updatedStatus"
  | .UpdatedStatusOnly => "updatedStatusOnly"

/-! ## The store and the collaborators -/

/-- A call the controller makes on a collaborator: the store client, the
ancestry resolver or the logger (message and key/value pairs). -/
inductive Call where
  | getCluster : NamespacedName → Call
  | getOwnerOrganization : dockyardsv1.Cluster → Call
  | getWorkload : NamespacedName → Call
  | createWorkload : dockyardsv1.Workload → Call
  | patchWorkload : dockyardsv1.Workload → Call
  | logInfo : String → List (String × String) → Call
deriving DecidableEq, Repr

/-- A call that writes to the store. -/
def Call.isMutation : Call → Bool
  | .createWorkload _ => true
  | .patchWorkload _ => true
  | _ => false

/-- The state a reconciliation runs in: the workloads the store holds and the
calls made so far, oldest first. -/
structure World where
  workloads : List (NamespacedName × dockyardsv1.Workload)
  calls : List Call
deriving DecidableEq, Repr

/-- The reconciler with what it embeds: the store client (the answer to a Get
of a cluster and the errors the store gives to calls on workloads), the
ancestry resolver `apiutil.GetOwnerOrganization`, and the values the
`dyconfig.ConfigManager` holds. -/
structure DockyardsClusterReconciler where
  getCluster : NamespacedName → Except Error dockyardsv1.Cluster
  getOwnerOrganization : dockyardsv1.Cluster → Except Error (Option dockyardsv1.Organization)
  fault : Call → Option Error
  config : List (String × String)

/-- The workload stored under a key. -/
def lookupWorkload (key : NamespacedName) :
    List (NamespacedName × dockyardsv1.Workload) → Option dockyardsv1.Workload
  | [] => none
  | (k, o) :: rest => if k = key then some o else lookupWorkload key rest

/-- The store with the workload under a key replaced. -/
def replaceWorkload (key : NamespacedName) (obj : dockyardsv1.Workload) :
    List (NamespacedName × dockyardsv1.Workload) → List (NamespacedName × dockyardsv1.Workload)
  | [] => []
  | (k, o) :: rest =>
    if k = key then (k, obj) :: rest else (k, o) :: replaceWorkload key obj rest

/-- The state with one more call recorded. -/
def World.record (w : World) (c : Call) : World :=
  { w with calls := w.calls ++ [c] }

/-- Client call `Get` on a workload. -/
def DockyardsClusterReconciler.GetWorkload (r : DockyardsClusterReconciler) (w : World)
    (key : NamespacedName) : Except Error dockyardsv1.Workload × World :=
  let w1 := w.record (.getWorkload key)
  match r.fault (.getWorkload key) with
  | some e => (.error e, w1)
  | none =>
    match lookupWorkload key w.workloads with
    | some o => (.ok o, w1)
    | none => (.error .notFound, w1)

/-- Client call `Create` on a workload: the object is stored under its key
unless the key is taken. -/
def DockyardsClusterReconciler.CreateWorkload (r : DockyardsClusterReconciler) (w : World)
    (obj : dockyardsv1.Workload) : Except Error Unit × World :=
  let w1 := w.record (.createWorkload obj)
  match r.fault (.createWorkload obj) with
  | some e => (.error e, w1)
  | none =>
    match lookupWorkload (client.ObjectKeyFromObject obj.ObjectMeta) w.workloads with
    | some _ => (.error .alreadyExists, w1)
    | none =>
      (.ok (), { w1 with workloads := w.workloads ++ [(client.ObjectKeyFromObject obj.ObjectMeta, obj)] })

/-- Client call `Patch` on a workload with the merge patch from the fetched
object to `obj`: the stored object becomes `obj`. -/
def DockyardsClusterReconciler.PatchWorkload (r : DockyardsClusterReconciler) (w : World)
    (obj : dockyardsv1.Workload) : Except Error Unit × World :=
  let w1 := w.record (.patchWorkload obj)
  match r.fault (.patchWorkload obj) with
  | some e => (.error e, w1)
  | none =>
    match lookupWorkload (client.ObjectKeyFromObject obj.ObjectMeta) w.workloads with
    | none => (.error .notFound, w1)
    | some _ =>
      (.ok (), { w1 with
        workloads := replaceWorkload (client.ObjectKeyFromObject obj.ObjectMeta) obj w.workloads })

/-- The function `mutate` of controllerutil: runs the mutation function and
refuses a change of the name or namespace. -/
def controllerutil.mutate (f : dockyardsv1.Workload → Except Error dockyardsv1.Workload)
    (key : NamespacedName) (obj : dockyardsv1.Workload) : Except Error dockyardsv1.Workload :=
  match f obj with
  | .error e => .error e
  | .ok obj1 =>
    if client.ObjectKeyFromObject obj1.ObjectMeta = key then .ok obj1 else .error .mutateKey

/-- The function `controllerutil.CreateOrPatch`: fetches the object; when it is
not found, mutates `obj` and creates it; when it is found, mutates the fetched
object and patches it if the mutation changed it.  Returns the operation
result and the object as it stands after the call.  The status patch is left
out: a workload has no status here and the mutation function sets none. -/
def controllerutil.CreateOrPatch (r : DockyardsClusterReconciler) (w : World)
    (obj : dockyardsv1.Workload)
    (f : dockyardsv1.Workload → Except Error dockyardsv1.Workload) :
    Except Error (OperationResult × dockyardsv1.Workload) × World :=
  let key := client.ObjectKeyFromObject obj.ObjectMeta
  match r.GetWorkload w key with
  | (.error e, w1) =>
    if e = Error.notFound then
      match controllerutil.mutate f key obj with
      | .error e1 => (.error e1, w1)
      | .ok obj1 =>
        match r.CreateWorkload w1 obj1 with
        | (.error e2, w2) => (.error e2, w2)
        | (.ok _, w2) => (.ok (OperationResult.Created, obj1), w2)
    else (.error e, w1)
  | (.ok before, w1) =>
    match controllerutil.mutate f key before with
    | .error e1 => (.error e1, w1)
    | .ok after =>
      if before = after then (.ok (OperationResult.None, after), w1)
      else
        match r.PatchWorkload w1 after with
        | (.error e2, w2) => (.error e2, w2)
        | (.ok _, w2) => (.ok (OperationResult.Updated, after), w2)

/-- The method `ConfigManager.GetValueOrDefault`: the value held for the key,
or the default when there is none. -/
def DockyardsClusterReconciler.GetValueOrDefault (r : DockyardsClusterReconciler)
    (key : String) (dflt : String) : String :=
  match r.config.find? (fun kv => kv.1 == key) with
  | some kv => kv.2
  | none => dflt

/-! ## controllers/dockyardscluster_controller.go -/

/-- What a mutation function returns: the mutated workload, or an error. -/
abbrev MutateResult := Except Error dockyardsv1.Workload

/-- The function `json.Marshal` on a document of maps, slices and strings, for
which it returns no error. -/
def json.Marshal (v : JSONValue) : Except Error String := .ok (encodeDocument v)

/-- The function `strings.ToLower`: ASCII upper-case letters become lower-case;
characters outside ASCII are left as they are. -/
def strings.ToLower (s : String) : String := String.mk (lowerChars s.data)

/-- One binding descriptor of the map literal in `reconcileRBACWorkload`. -/
def bindingDescriptor (bindingName : String) (roleRefName : String) : JSONValue :=
  .obj [
    ("bindingName", .str bindingName),
    ("roleRef", .obj [("kind", .str "ClusterRole"), ("name", .str roleRefName)]),
    ("subjects", .arr [.obj [("kind", .str "Group"), ("name", .str bindingName)]])]

/-- The map literal that `reconcileRBACWorkload` hands to `json.Marshal`. -/
def rbacInput (k : Constants) : JSONValue :=
  let readerRole := "dockyards:" ++ strings.ToLower k.RoleReader
  let editorRole := "dockyards:" ++ strings.ToLower k.RoleUser
  let adminRole := "dockyards:" ++ strings.ToLower k.RoleSuperUser
  .obj [
    ("clusterRoleBindings", .arr [
      bindingDescriptor readerRole "view",
      bindingDescriptor editorRole "edit",
      bindingDescriptor adminRole "cluster-admin"])]

/-- The mutation function `reconcileRBACWorkload` passes to `CreateOrPatch`,
as a function of the workload it finds. -/
def mutateFn (k : Constants) (cluster : dockyardsv1.Cluster) (publicNamespace : String)
    (workload : dockyardsv1.Workload) : MutateResult :=
  if metav1.HasAnnotation workload.ObjectMeta k.AnnotationSkipRemediation then .ok workload
  else
    let meta1 := { workload.ObjectMeta with
      Labels := [(k.LabelClusterName, cluster.ObjectMeta.Name)]
      OwnerReferences := [{
        APIVersion := k.GroupVersion
        Kind := k.ClusterKind
        Name := cluster.ObjectMeta.Name
        UID := cluster.ObjectMeta.UID
        Controller := none
        BlockOwnerDeletion := none }] }
    let spec1 := { workload.Spec with
      Provenience := k.ProvenienceDockyards
      ClusterComponent := true
      TargetNamespace := "kube-system"
      WorkloadTemplateRef := some {
        APIGroup := none
        Kind := k.WorkloadTemplateKind
        Name := "rbac"
        Namespace := some publicNamespace } }
    match json.Marshal (rbacInput k) with
    | .error err => .error err
    | .ok raw =>
      .ok { ObjectMeta := meta1, Spec := { spec1 with Input := some { Raw := raw } } }

/-- The workload `reconcileRBACWorkload` hands to `CreateOrPatch`: name and namespace only. -/
def rbacWorkload (cluster : dockyardsv1.Cluster) : dockyardsv1.Workload :=
  { (default : dockyardsv1.Workload) with
    ObjectMeta := { (default : metav1.ObjectMeta) with
      Name := cluster.ObjectMeta.Name ++ "-rbac"
      Namespace := cluster.ObjectMeta.Namespace } }

/-- The method `reconcileRBACWorkload`. -/
def DockyardsClusterReconciler.reconcileRBACWorkload (r : DockyardsClusterReconciler)
    (k : Constants) (w : World) (cluster : dockyardsv1.Cluster) : Except Error Result × World :=
  let publicNamespace := r.GetValueOrDefault k.KeyPublicNamespace ""
  if publicNamespace = "" then (.error (.noConfigValue k.KeyPublicNamespace), w)
  else
    match controllerutil.CreateOrPatch r w (rbacWorkload cluster)
        (mutateFn k cluster publicNamespace) with
    | (.error err, w1) => (.error err, w1)
    | (.ok (operationResult, workload), w1) =>
      (.ok default, w1.record (.logInfo "Reconciled Workload" [
        ("cluster", cluster.ObjectMeta.Name),
        ("workload", workload.ObjectMeta.Name),
        ("operationResult", operationResult.toString)]))

/-- The method `Reconcile`.  A failed fetch leaves the cluster variable at its zero value. -/
def DockyardsClusterReconciler.Reconcile (r : DockyardsClusterReconciler)
    (k : Constants) (w : World) (req : NamespacedName) : Except Error Result × World :=
  let w1 := w.record (.getCluster req)
  let fetched : dockyardsv1.Cluster × Option Error :=
    match r.getCluster req with
    | .ok c => (c, none)
    | .error e => (default, some e)
  let cluster := fetched.1
  match client.IgnoreNotFound fetched.2 with
  | some err => (.error err, w1)
  | none =>
    if !metav1.IsZero cluster.ObjectMeta.DeletionTimestamp then (.ok default, w1)
    else
      let w2 := w1.record (.getOwnerOrganization cluster)
      match r.getOwnerOrganization cluster with
      | .error err => (.error err, w2)
      | .ok none =>
        (.ok default, w2.record (.logInfo "ignoring cluster without owner organization" []))
      | .ok (some _) => r.reconcileRBACWorkload k w2 cluster

/-! ## Encoded forms

The characters of the payload written out, with every string kept as a quoted
unit; the theorems relate them to `encodeValue` and `parseValue`. -/

/-- A quoted, escaped string followed by more input. -/
def quoted (s : String) (rest : List Char) : List Char :=
  '"' :: (s.data.flatMap escapeChar ++ '"' :: rest)

/-- The characters of a two-member object of strings, followed by more input. -/
def pairChars (k1 v1 k2 v2 : String) (rest : List Char) : List Char :=
  '{' :: quoted k1 (':' :: quoted v1 (',' :: quoted k2 (':' :: quoted v2 ('}' :: rest))))

/-- The characters of a binding descriptor, followed by more input. -/
def descriptorChars (name ref : String) (rest : List Char) : List Char :=
  '{' :: quoted "bindingName" (':' :: quoted name (',' :: quoted "roleRef" (':' ::
    pairChars "kind" "ClusterRole" "name" ref (',' :: quoted "subjects" (':' :: '[' ::
      pairChars "kind" "Group" "name" name (']' :: '}' :: rest))))))

/-- The characters of the whole payload. -/
def rbacInputChars (k : Constants) : List Char :=
  '{' :: quoted "clusterRoleBindings" (':' :: '[' ::
    descriptorChars ("dockyards:" ++ strings.ToLower k.RoleReader) "view" (',' ::
    descriptorChars ("dockyards:" ++ strings.ToLower k.RoleUser) "edit" (',' ::
    descriptorChars ("dockyards:" ++ strings.ToLower k.RoleSuperUser) "cluster-admin"
      (']' :: '}' :: []))))

/-! ## The test's expectation and observations on results -/

/-- The value `expected` of `TestClusterReconciler`; `RolePrefix` is a constant
the test names and no source file of the package declares. -/
def expectedInput (RolePrefix : String) (k : Constants) : RBACWorkloadInput :=
  let readerRole := RolePrefix ++ strings.ToLower k.RoleReader
  let editorRole := RolePrefix ++ strings.ToLower k.RoleUser
  let adminRole := RolePrefix ++ strings.ToLower k.RoleSuperUser
  { ClusterRoleBindings := some [
      { BindingName := readerRole
        RoleRef := { APIGroup := "", Kind := "ClusterRole", Name := "view" }
        Subjects := some [{ Kind := "Group", APIGroup := "", Name := readerRole, Namespace := "" }] },
      { BindingName := editorRole
        RoleRef := { APIGroup := "", Kind := "ClusterRole", Name := "edit" }
        Subjects := some [{ Kind := "Group", APIGroup := "", Name := editorRole, Namespace := "" }] },
      { BindingName := adminRole
        RoleRef := { APIGroup := "", Kind := "ClusterRole", Name := "admin" }
        Subjects := some [{ Kind := "Group", APIGroup := "", Name := adminRole, Namespace := "" }] }]
    RoleBindings := none }

/-- The bytes in `Spec.Input` of the workload a mutation returns. -/
def storedInput (res : MutateResult) : Option String :=
  match res with
  | .ok workload => workload.Spec.Input.map (fun j => j.Raw)
  | .error _ => none

/-- The workload a mutation returns, if it returns without error. -/
def mutated (res : MutateResult) : Option dockyardsv1.Workload :=
  match res with
  | .ok workload => some workload
  | .error _ => none

/-- The value under a top-level key of a JSON object. -/
def memberOf (key : String) : JSONValue → Option JSONValue
  | .obj ms => (ms.find? (fun kv => kv.1 == key)).map (fun kv => kv.2)
  | _ => none

/-- The top-level keys of a JSON object. -/
def keysOf : JSONValue → List String
  | .obj ms => ms.map (fun kv => kv.1)
  | _ => []

/-- The number of elements of a JSON array. -/
def arrayLength : JSONValue → Option Nat
  | .arr vs => some vs.length
  | _ => none

/-- The identity a call on a workload addresses. -/
def Call.workloadKey : Call → Option NamespacedName
  | .getWorkload key => some key
  | .createWorkload obj => some (client.ObjectKeyFromObject obj.ObjectMeta)
  | .patchWorkload obj => some (client.ObjectKeyFromObject obj.ObjectMeta)
  | _ => none

/-- Sample constants, with values chosen for the examples. -/
def sampleConstants : Constants :=
  { AnnotationSkipRemediation := "dockyards.io/skip-remediation"
    LabelClusterName := "dockyards.io/cluster-name"
    GroupVersion := "dockyards.io/v1alpha3"
    ClusterKind := "Cluster"
    WorkloadTemplateKind := "WorkloadTemplate"
    ProvenienceDockyards := "Dockyards"
    RoleReader := "Reader"
    RoleUser := "User"
    RoleSuperUser := "SuperUser"
    KeyPublicNamespace := "publicNamespace" }

/-- A sample cluster `cluster1` in namespace `ns1`. -/
def sampleCluster : dockyardsv1.Cluster :=
  { ObjectMeta := { (default : metav1.ObjectMeta) with
      Name := "cluster1", Namespace := "ns1", UID := "uid-1" } }

/-- A sample reconciler: the store returns the sample cluster and no errors,
the cluster has an owner, the public namespace is `pub`. -/
def sampleReconciler : DockyardsClusterReconciler :=
  { getCluster := fun _ => .ok sampleCluster
    getOwnerOrganization := fun _ => .ok (some default)
    fault := fun _ => none
    config := [("publicNamespace", "pub")] }

/-- The state with no workloads and no calls. -/
def emptyWorld : World := { workloads := [], calls := [] }

/-- A cluster with a deletion timestamp. -/
def deletedCluster : dockyardsv1.Cluster :=
  { ObjectMeta := { sampleCluster.ObjectMeta with DeletionTimestamp := some 1700000000 } }

/-- The sample reconciler with a store that returns the cluster being deleted. -/
def deletingReconciler : DockyardsClusterReconciler :=
  { sampleReconciler with getCluster := fun _ => .ok deletedCluster }

/-- A reconciler whose store reports not-found for every cluster and whose
ancestry resolver fails. -/
def goneFailingReconciler : DockyardsClusterReconciler :=
  { getCluster := fun _ => .error .notFound
    getOwnerOrganization := fun _ => .error (.api "context canceled")
    fault := fun _ => none
    config := [("publicNamespace", "pub")] }

/-- A reconciler whose store reports not-found for every cluster and whose
ancestry resolver returns an organization. -/
def goneOwnedReconciler : DockyardsClusterReconciler :=
  { getCluster := fun _ => .error .notFound
    getOwnerOrganization := fun _ => .ok (some default)
    fault := fun _ => none
    config := [("publicNamespace", "pub")] }

/-! ## encoding/json: decoding what was encoded -/

theorem hexVal_hexDigit (n : Nat) (h : n < 16) : hexVal (hexDigit n) = some n := by
  interval_cases n <;> decide

theorem scanString_hexDigits (n : Nat) (h : n < 0xD800) (rest acc : List Char) :
    scanString (.text none) ('\\' :: 'u' :: hexDigit (n / 4096 % 16) :: hexDigit (n / 256 % 16) ::
      hexDigit (n / 16 % 16) :: hexDigit (n % 16) :: rest) acc
    = scanString (.text none) rest (Char.ofNat n :: acc) := by
  have h1 : n / 4096 % 16 < 16 := Nat.mod_lt _ (by norm_num)
  have h2 : n / 256 % 16 < 16 := Nat.mod_lt _ (by norm_num)
  have h3 : n / 16 % 16 < 16 := Nat.mod_lt _ (by norm_num)
  have h4 : n % 16 < 16 := Nat.mod_lt _ (by norm_num)
  have e : ((n / 4096 % 16 * 16 + n / 256 % 16) * 16 + n / 16 % 16) * 16 + n % 16 = n := by
    omega
  have g1 : ¬ (55296 ≤ n ∧ n < 56320) := by omega
  have g2 : ¬ (56320 ≤ n ∧ n < 57344) := by omega
  simp only [scanString, stringStep, hexVal_hexDigit _ h1, hexVal_hexDigit _ h2,
    hexVal_hexDigit _ h3, hexVal_hexDigit _ h4]
  simp [e, finishEscape, g1, g2]

theorem parseStringBody_escapeChar (c : Char) (rest acc : List Char) :
    parseStringBody (escapeChar c ++ rest) acc = parseStringBody rest (c :: acc) := by
  unfold escapeChar parseStringBody
  split_ifs with h1 h2 h3 h4 h5 h6 h7 h8
  · subst h1; rfl
  · subst h2; rfl
  · subst h3; rfl
  · subst h4; rfl
  · subst h5; rfl
  · subst h6; rfl
  · subst h7; rfl
  · have hn : c.toNat < 0xD800 := by
      rcases h8 with h | h | h | h | h | h
      · omega
      · subst h; decide
      · subst h; decide
      · subst h; decide
      · omega
      · omega
    have := scanString_hexDigits c.toNat hn rest acc
    simpa [Char.ofNat_toNat] using this
  · have h9 : ¬ c.toNat < 32 := fun h => h8 (Or.inl h)
    simp [scanString, stringStep, h1, h2, h9, flushPending]

theorem parseStringBody_escaped (s rest acc : List Char) :
    parseStringBody (s.flatMap escapeChar ++ '"' :: rest) acc = some (acc.reverse ++ s, rest) := by
  induction s generalizing acc with
  | nil => simp [parseStringBody, scanString, stringStep, flushPending]
  | cons c s ih =>
    rw [List.flatMap_cons, List.append_assoc, parseStringBody_escapeChar, ih]
    simp

theorem encodeString_eq_quoted (s : String) : encodeString s = quoted s [] := rfl

theorem quoted_append (s : String) (rest more : List Char) :
    quoted s rest ++ more = quoted s (rest ++ more) := by
  simp [quoted]

theorem parseValue_quoted (f : Nat) (hf : 0 < f) (s : String) (rest : List Char) :
    parseValue f (quoted s rest) = some (JSONValue.str s, rest) := by
  obtain ⟨n, rfl⟩ : ∃ n, f = n + 1 := ⟨f - 1, by omega⟩
  simp [parseValue, quoted, skipWs, parseStringBody_escaped]

theorem parseMembers_more (p : List Char → Option (JSONValue × List Char)) (f : Nat) (hf : 0 < f)
    (k : String) (cs rest : List Char) (v : JSONValue) (acc : List (String × JSONValue))
    (h : p cs = some (v, ',' :: rest)) :
    parseMembers p f (quoted k (':' :: cs)) acc = parseMembers p (f - 1) rest ((k, v) :: acc) := by
  obtain ⟨m, rfl⟩ : ∃ m, f = m + 1 := ⟨f - 1, by omega⟩
  simp [parseMembers, quoted, skipWs, parseStringBody_escaped, h]

theorem parseMembers_last (p : List Char → Option (JSONValue × List Char)) (f : Nat) (hf : 0 < f)
    (k : String) (cs rest : List Char) (v : JSONValue) (acc : List (String × JSONValue))
    (h : p cs = some (v, '}' :: rest)) :
    parseMembers p f (quoted k (':' :: cs)) acc = some (((k, v) :: acc).reverse, rest) := by
  obtain ⟨m, rfl⟩ : ∃ m, f = m + 1 := ⟨f - 1, by omega⟩
  simp [parseMembers, quoted, skipWs, parseStringBody_escaped, h]

theorem parseElems_more (p : List Char → Option (JSONValue × List Char)) (f : Nat) (hf : 0 < f)
    (cs rest : List Char) (v : JSONValue) (acc : List JSONValue)
    (h : p cs = some (v, ',' :: rest)) :
    parseElems p f cs acc = parseElems p (f - 1) rest (v :: acc) := by
  obtain ⟨m, rfl⟩ : ∃ m, f = m + 1 := ⟨f - 1, by omega⟩
  simp [parseElems, skipWs, h]

theorem parseElems_last (p : List Char → Option (JSONValue × List Char)) (f : Nat) (hf : 0 < f)
    (cs rest : List Char) (v : JSONValue) (acc : List JSONValue)
    (h : p cs = some (v, ']' :: rest)) :
    parseElems p f cs acc = some ((v :: acc).reverse, rest) := by
  obtain ⟨m, rfl⟩ : ∃ m, f = m + 1 := ⟨f - 1, by omega⟩
  simp [parseElems, skipWs, h]

theorem parseValue_object (f : Nat) (hf : 0 < f) (k : String) (cs r : List Char)
    (ms : List (String × JSONValue))
    (h : parseMembers (parseValue (f - 1)) (f - 1) (quoted k cs) [] = some (ms, r)) :
    parseValue f ('{' :: quoted k cs) = some (JSONValue.obj ms, r) := by
  obtain ⟨n, rfl⟩ : ∃ n, f = n + 1 := ⟨f - 1, by omega⟩
  unfold quoted at h
  simp only [Nat.add_sub_cancel] at h
  simp [parseValue, quoted, skipWs, h]

theorem parseValue_array (f : Nat) (hf : 0 < f) (cs r : List Char) (vs : List JSONValue)
    (h : parseElems (parseValue (f - 1)) (f - 1) ('{' :: cs) [] = some (vs, r)) :
    parseValue f ('[' :: '{' :: cs) = some (JSONValue.arr vs, r) := by
  obtain ⟨n, rfl⟩ : ∃ n, f = n + 1 := ⟨f - 1, by omega⟩
  simp only [Nat.add_sub_cancel] at h
  simp [parseValue, skipWs, h]

theorem parseValue_pairChars (f : Nat) (hf : 3 ≤ f) (k1 v1 k2 v2 : String) (rest : List Char) :
    parseValue f (pairChars k1 v1 k2 v2 rest)
      = some (JSONValue.obj [(k1, .str v1), (k2, .str v2)], rest) := by
  unfold pairChars
  apply parseValue_object f (by omega)
  rw [parseMembers_more _ _ (by omega) _ _ _ _ _ (parseValue_quoted _ (by omega) _ _),
    parseMembers_last _ _ (by omega) _ _ _ _ _ (parseValue_quoted _ (by omega) _ _)]
  rfl

theorem parseValue_descriptorChars (f : Nat) (hf : 6 ≤ f) (name ref : String) (rest : List Char) :
    parseValue f (descriptorChars name ref rest) = some (bindingDescriptor name ref, rest) := by
  unfold descriptorChars
  apply parseValue_object f (by omega)
  rw [parseMembers_more _ _ (by omega) _ _ _ _ _ (parseValue_quoted _ (by omega) _ _),
    parseMembers_more _ _ (by omega) _ _ _ _ _ (parseValue_pairChars _ (by omega) _ _ _ _ _)]
  have harr : parseValue (f - 1)
      ('[' :: pairChars "kind" "Group" "name" name (']' :: '}' :: rest))
      = some (JSONValue.arr [JSONValue.obj [("kind", .str "Group"), ("name", .str name)]],
          '}' :: rest) := by
    have hel := parseElems_last (parseValue (f - 1 - 1)) (f - 1 - 1) (by omega)
      (pairChars "kind" "Group" "name" name (']' :: '}' :: rest)) ('}' :: rest) _ []
      (parseValue_pairChars (f - 1 - 1) (by omega) _ _ _ _ _)
    exact parseValue_array (f - 1) (by omega) _ _ _ hel
  rw [parseMembers_last _ _ (by omega) _ _ _ _ _ harr]
  rfl

theorem encodeValue_bindingDescriptor (name ref : String) (rest : List Char) :
    encodeValue (bindingDescriptor name ref) ++ rest = descriptorChars name ref rest := by
  simp [bindingDescriptor, descriptorChars, pairChars, encodeValue, encodeElems, encodeMembers,
    sortMembers, insertMember, joinComma, encodeMember, encodeString_eq_quoted, quoted_append,
    lessChars]

theorem encodeValue_bindings (d1 d2 d3 : JSONValue) :
    encodeValue (.obj [("clusterRoleBindings", .arr [d1, d2, d3])])
      = '{' :: quoted "clusterRoleBindings" (':' :: '[' ::
          (encodeValue d1 ++ ',' :: (encodeValue d2 ++ ',' :: (encodeValue d3 ++ [']', '}'])))) := by
  rw [encodeValue, encodeMembers, encodeMembers, encodeValue, encodeElems, encodeElems,
    encodeElems, encodeElems]
  simp [sortMembers, insertMember, joinComma, encodeMember, encodeString_eq_quoted, quoted_append]

theorem encodeValue_rbacInput (k : Constants) : encodeValue (rbacInput k) = rbacInputChars k := by
  simp only [rbacInput, rbacInputChars, encodeValue_bindings, encodeValue_bindingDescriptor]

theorem parseValue_rbacInputChars (f : Nat) (hf : 8 ≤ f) (k : Constants) :
    parseValue f (rbacInputChars k) = some (rbacInput k, []) := by
  unfold rbacInputChars
  apply parseValue_object f (by omega)
  have h3 := parseElems_last (parseValue (f - 1 - 1)) (f - 1 - 1 - 1 - 1) (by omega)
    (descriptorChars ("dockyards:" ++ strings.ToLower k.RoleSuperUser) "cluster-admin"
      (']' :: '}' :: [])) ('}' :: [])
    _ [bindingDescriptor ("dockyards:" ++ strings.ToLower k.RoleUser) "edit",
       bindingDescriptor ("dockyards:" ++ strings.ToLower k.RoleReader) "view"]
    (parseValue_descriptorChars (f - 1 - 1) (by omega) _ _ _)
  have h2 := parseElems_more (parseValue (f - 1 - 1)) (f - 1 - 1 - 1) (by omega)
    (descriptorChars ("dockyards:" ++ strings.ToLower k.RoleUser) "edit" (',' ::
      descriptorChars ("dockyards:" ++ strings.ToLower k.RoleSuperUser) "cluster-admin"
        (']' :: '}' :: []))) _
    _ [bindingDescriptor ("dockyards:" ++ strings.ToLower k.RoleReader) "view"]
    (parseValue_descriptorChars (f - 1 - 1) (by omega) _ _ _)
  have h1 := parseElems_more (parseValue (f - 1 - 1)) (f - 1 - 1) (by omega)
    (descriptorChars ("dockyards:" ++ strings.ToLower k.RoleReader) "view" (',' ::
      descriptorChars ("dockyards:" ++ strings.ToLower k.RoleUser) "edit" (',' ::
      descriptorChars ("dockyards:" ++ strings.ToLower k.RoleSuperUser) "cluster-admin"
        (']' :: '}' :: [])))) _
    _ []
    (parseValue_descriptorChars (f - 1 - 1) (by omega) _ _ _)
  have harr : parseValue (f - 1) ('[' ::
      descriptorChars ("dockyards:" ++ strings.ToLower k.RoleReader) "view" (',' ::
      descriptorChars ("dockyards:" ++ strings.ToLower k.RoleUser) "edit" (',' ::
      descriptorChars ("dockyards:" ++ strings.ToLower k.RoleSuperUser) "cluster-admin"
        (']' :: '}' :: []))))
      = some (JSONValue.arr [
          bindingDescriptor ("dockyards:" ++ strings.ToLower k.RoleReader) "view",
          bindingDescriptor ("dockyards:" ++ strings.ToLower k.RoleUser) "edit",
          bindingDescriptor ("dockyards:" ++ strings.ToLower k.RoleSuperUser) "cluster-admin"],
          '}' :: []) :=
    parseValue_array (f - 1) (by omega) _ _ _ (h1.trans (h2.trans h3))
  exact parseMembers_last (parseValue (f - 1)) (f - 1) (by omega) "clusterRoleBindings" _ [] _ []
    harr

theorem length_quoted (s : String) (rest : List Char) :
    rest.length + 2 ≤ (quoted s rest).length := by
  simp [quoted]

theorem length_two_quoted (s1 s2 : String) (rest : List Char) :
    7 ≤ ('{' :: quoted s1 (':' :: '[' :: '{' :: quoted s2 rest)).length := by
  have h1 := length_quoted s1 (':' :: '[' :: '{' :: quoted s2 rest)
  have h2 := length_quoted s2 rest
  simp only [List.length_cons] at h1 h2 ⊢
  omega

theorem rbacInputChars_length (k : Constants) : 8 ≤ (rbacInputChars k).length + 1 := by
  unfold rbacInputChars descriptorChars
  exact Nat.succ_le_succ (length_two_quoted _ _ _)

theorem parseDocument_rbacInput (k : Constants) :
    parseDocument (encodeDocument (rbacInput k)) = some (rbacInput k) := by
  have h := parseValue_rbacInputChars ((rbacInputChars k).length + 1) (rbacInputChars_length k) k
  simp [parseDocument, encodeDocument, encodeValue_rbacInput, String.length, h, skipWs]

theorem Unmarshal_rbacInput (k : Constants) :
    json.Unmarshal (encodeDocument (rbacInput k)) = some {
      ClusterRoleBindings := some [
        { BindingName := "dockyards:" ++ strings.ToLower k.RoleReader
          RoleRef := { APIGroup := "", Kind := "ClusterRole", Name := "view" }
          Subjects := some [{
            Kind := "Group"
            APIGroup := ""
            Name := "dockyards:" ++ strings.ToLower k.RoleReader
            Namespace := "" }] },
        { BindingName := "dockyards:" ++ strings.ToLower k.RoleUser
          RoleRef := { APIGroup := "", Kind := "ClusterRole", Name := "edit" }
          Subjects := some [{
            Kind := "Group"
            APIGroup := ""
            Name := "dockyards:" ++ strings.ToLower k.RoleUser
            Namespace := "" }] },
        { BindingName := "dockyards:" ++ strings.ToLower k.RoleSuperUser
          RoleRef := { APIGroup := "", Kind := "ClusterRole", Name := "cluster-admin" }
          Subjects := some [{
            Kind := "Group"
            APIGroup := ""
            Name := "dockyards:" ++ strings.ToLower k.RoleSuperUser
            Namespace := "" }] }]
      RoleBindings := none } := by
  rw [json.Unmarshal, parseDocument_rbacInput]
  rfl

/-! ## The mutation function -/

theorem mutateFn_of_skip (k : Constants) (cluster : dockyardsv1.Cluster) (p : String)
    (workload : dockyardsv1.Workload)
    (h : metav1.HasAnnotation workload.ObjectMeta k.AnnotationSkipRemediation = true) :
    mutateFn k cluster p workload = .ok workload := by
  simp [mutateFn, h]

theorem mutateFn_of_not_skip (k : Constants) (cluster : dockyardsv1.Cluster) (p : String)
    (workload : dockyardsv1.Workload)
    (h : metav1.HasAnnotation workload.ObjectMeta k.AnnotationSkipRemediation = false) :
    mutateFn k cluster p workload = .ok {
      ObjectMeta := { workload.ObjectMeta with
        Labels := [(k.LabelClusterName, cluster.ObjectMeta.Name)]
        OwnerReferences := [{
          APIVersion := k.GroupVersion
          Kind := k.ClusterKind
          Name := cluster.ObjectMeta.Name
          UID := cluster.ObjectMeta.UID
          Controller := none
          BlockOwnerDeletion := none }] }
      Spec := {
        ClusterComponent := true
        TargetNamespace := "kube-system"
        Provenience := k.ProvenienceDockyards
        WorkloadTemplateRef := some {
          APIGroup := none
          Kind := k.WorkloadTemplateKind
          Name := "rbac"
          Namespace := some p }
        Input := some { Raw := encodeDocument (rbacInput k) } } } := by
  simp [mutateFn, h, json.Marshal]

theorem mutateFn_idempotent (k : Constants) (cluster : dockyardsv1.Cluster) (p : String)
    (workload : dockyardsv1.Workload) :
    (mutateFn k cluster p workload).bind (mutateFn k cluster p) = mutateFn k cluster p workload := by
  cases h : metav1.HasAnnotation workload.ObjectMeta k.AnnotationSkipRemediation
  · rw [mutateFn_of_not_skip k cluster p workload h]
    simp only [Except.bind]
    rw [mutateFn_of_not_skip]
    exact h
  · rw [mutateFn_of_skip k cluster p workload h]
    simp only [Except.bind]
    exact mutateFn_of_skip k cluster p workload h

theorem storedInput_mutateFn (k : Constants) (cluster : dockyardsv1.Cluster) (p : String)
    (workload : dockyardsv1.Workload)
    (h : metav1.HasAnnotation workload.ObjectMeta k.AnnotationSkipRemediation = false) :
    storedInput (mutateFn k cluster p workload) = some (encodeDocument (rbacInput k)) := by
  rw [mutateFn_of_not_skip k cluster p workload h]
  rfl

/-! ## The store and CreateOrPatch -/

theorem lookupWorkload_append_self (key : NamespacedName) (obj : dockyardsv1.Workload)
    (l : List (NamespacedName × dockyardsv1.Workload)) (h : lookupWorkload key l = none) :
    lookupWorkload key (l ++ [(key, obj)]) = some obj := by
  induction l with
  | nil => simp [lookupWorkload]
  | cons x xs ih =>
    obtain ⟨k1, o1⟩ := x
    by_cases hk : k1 = key
    · simp [lookupWorkload, hk] at h
    · simp only [lookupWorkload, hk, if_false] at h
      simp [lookupWorkload, hk, ih h]

theorem lookupWorkload_replace (key : NamespacedName) (obj o : dockyardsv1.Workload)
    (l : List (NamespacedName × dockyardsv1.Workload)) (h : lookupWorkload key l = some o) :
    lookupWorkload key (replaceWorkload key obj l) = some obj := by
  induction l with
  | nil => simp [lookupWorkload] at h
  | cons x xs ih =>
    obtain ⟨k1, o1⟩ := x
    by_cases hk : k1 = key
    · simp [lookupWorkload, replaceWorkload, hk]
    · simp only [lookupWorkload, hk, if_false] at h
      simp [lookupWorkload, replaceWorkload, hk, ih h]

theorem filter_replaceWorkload (key : NamespacedName) (obj : dockyardsv1.Workload)
    (l : List (NamespacedName × dockyardsv1.Workload)) :
    (replaceWorkload key obj l).filter (fun kv => kv.1 != key)
      = l.filter (fun kv => kv.1 != key) := by
  induction l with
  | nil => rfl
  | cons x xs ih =>
    obtain ⟨k1, o1⟩ := x
    by_cases hk : k1 = key
    · simp [replaceWorkload, hk]
    · simp [replaceWorkload, hk, ih]

theorem mutate_key (f : dockyardsv1.Workload → Except Error dockyardsv1.Workload)
    (key : NamespacedName) (obj obj1 : dockyardsv1.Workload)
    (h : controllerutil.mutate f key obj = .ok obj1) :
    f obj = .ok obj1 ∧ client.ObjectKeyFromObject obj1.ObjectMeta = key := by
  unfold controllerutil.mutate at h
  cases hf : f obj with
  | error e => simp [hf] at h
  | ok o =>
    simp only [hf] at h
    split_ifs at h with hk
    · cases h
      exact ⟨rfl, hk⟩

theorem CreateOrPatch_calls (r : DockyardsClusterReconciler) (w : World)
    (obj : dockyardsv1.Workload)
    (f : dockyardsv1.Workload → Except Error dockyardsv1.Workload) :
    ∃ extra, (controllerutil.CreateOrPatch r w obj f).2.calls
        = w.calls ++ Call.getWorkload (client.ObjectKeyFromObject obj.ObjectMeta) :: extra
      ∧ extra.all (fun c =>
          c.workloadKey == some (client.ObjectKeyFromObject obj.ObjectMeta)) = true
      ∧ (controllerutil.CreateOrPatch r w obj f).2.workloads.filter
          (fun kv => kv.1 != client.ObjectKeyFromObject obj.ObjectMeta)
        = w.workloads.filter (fun kv => kv.1 != client.ObjectKeyFromObject obj.ObjectMeta) := by
  generalize hkey : client.ObjectKeyFromObject obj.ObjectMeta = key
  have hcreate : ∃ extra,
      (match controllerutil.mutate f key obj with
        | .error e1 => ((.error e1 : Except Error (OperationResult × dockyardsv1.Workload)),
            w.record (.getWorkload key))
        | .ok obj1 =>
          match r.CreateWorkload (w.record (.getWorkload key)) obj1 with
          | (.error e2, w2) => (.error e2, w2)
          | (.ok _, w2) => (.ok (OperationResult.Created, obj1), w2)).2.calls
        = w.calls ++ Call.getWorkload key :: extra
      ∧ extra.all (fun c => c.workloadKey == some key) = true
      ∧ (match controllerutil.mutate f key obj with
        | .error e1 => ((.error e1 : Except Error (OperationResult × dockyardsv1.Workload)),
            w.record (.getWorkload key))
        | .ok obj1 =>
          match r.CreateWorkload (w.record (.getWorkload key)) obj1 with
          | (.error e2, w2) => (.error e2, w2)
          | (.ok _, w2) => (.ok (OperationResult.Created, obj1), w2)).2.workloads.filter
            (fun kv => kv.1 != key)
        = w.workloads.filter (fun kv => kv.1 != key) := by
    cases hm : controllerutil.mutate f key obj with
    | error e1 => exact ⟨[], by simp [World.record]⟩
    | ok obj1 =>
      have hk := (mutate_key f key obj obj1 hm).2
      simp only [DockyardsClusterReconciler.CreateWorkload, World.record, hk]
      cases r.fault (Call.createWorkload obj1) with
      | some e => exact ⟨[Call.createWorkload obj1], by simp [Call.workloadKey, hk]⟩
      | none =>
        cases lookupWorkload key w.workloads with
        | some o => exact ⟨[Call.createWorkload obj1], by simp [Call.workloadKey, hk]⟩
        | none => exact ⟨[Call.createWorkload obj1], by simp [Call.workloadKey, hk]⟩
  unfold controllerutil.CreateOrPatch
  simp only [hkey, DockyardsClusterReconciler.GetWorkload]
  cases hf : r.fault (Call.getWorkload key) with
  | some e =>
    by_cases he : e = Error.notFound
    · subst he
      simpa using hcreate
    · exact ⟨[], by simp [he, World.record]⟩
  | none =>
    cases hl : lookupWorkload key w.workloads with
    | none => simpa using hcreate
    | some before =>
      simp only []
      cases hm : controllerutil.mutate f key before with
      | error e1 => exact ⟨[], by simp [World.record]⟩
      | ok after =>
        have hk := (mutate_key f key before after hm).2
        by_cases hba : before = after
        · exact ⟨[], by simp [hba, World.record]⟩
        · simp only [hba, if_false, DockyardsClusterReconciler.PatchWorkload, World.record, hk, hl]
          cases r.fault (Call.patchWorkload after) with
          | some e => exact ⟨[Call.patchWorkload after], by simp [Call.workloadKey, hk]⟩
          | none =>
            exact ⟨[Call.patchWorkload after],
              by simp [Call.workloadKey, hk, filter_replaceWorkload]⟩

theorem CreateOrPatch_ok (r : DockyardsClusterReconciler) (w w1 : World)
    (obj o : dockyardsv1.Workload) (res : OperationResult)
    (f : dockyardsv1.Workload → Except Error dockyardsv1.Workload)
    (hfault : r.fault (Call.getWorkload (client.ObjectKeyFromObject obj.ObjectMeta)) = none)
    (h : controllerutil.CreateOrPatch r w obj f = (.ok (res, o), w1)) :
    lookupWorkload (client.ObjectKeyFromObject obj.ObjectMeta) w1.workloads = some o
      ∧ (∃ o0, f o0 = .ok o)
      ∧ client.ObjectKeyFromObject o.ObjectMeta = client.ObjectKeyFromObject obj.ObjectMeta := by
  generalize hkey : client.ObjectKeyFromObject obj.ObjectMeta = key at hfault h ⊢
  unfold controllerutil.CreateOrPatch at h
  simp only [hkey, DockyardsClusterReconciler.GetWorkload, hfault] at h
  cases hl : lookupWorkload key w.workloads with
  | none =>
    simp only [hl, if_true] at h
    cases hm : controllerutil.mutate f key obj with
    | error e1 => simp [hm] at h
    | ok obj1 =>
      have hk := mutate_key f key obj obj1 hm
      simp only [hm, DockyardsClusterReconciler.CreateWorkload, World.record, hk.2, hl] at h
      cases hc : r.fault (Call.createWorkload obj1) with
      | some e => simp [hc] at h
      | none =>
        simp only [hc, Prod.mk.injEq, Except.ok.injEq] at h
        obtain ⟨⟨-, ho⟩, hw⟩ := h
        subst ho hw
        exact ⟨lookupWorkload_append_self key obj1 _ hl, ⟨obj, hk.1⟩, hk.2⟩
  | some before =>
    simp only [hl] at h
    cases hm : controllerutil.mutate f key before with
    | error e1 => simp [hm] at h
    | ok after =>
      have hk := mutate_key f key before after hm
      simp only [hm] at h
      by_cases hba : before = after
      · simp only [hba, if_true, Prod.mk.injEq, Except.ok.injEq, World.record] at h
        obtain ⟨⟨-, ho⟩, hw⟩ := h
        subst ho hw
        exact ⟨by simpa [hba] using hl, ⟨before, hk.1⟩, hk.2⟩
      · simp only [hba, if_false, DockyardsClusterReconciler.PatchWorkload, World.record, hk.2,
          hl] at h
        cases hc : r.fault (Call.patchWorkload after) with
        | some e => simp [hc] at h
        | none =>
          simp only [hc, Prod.mk.injEq, Except.ok.injEq] at h
          obtain ⟨⟨-, ho⟩, hw⟩ := h
          subst ho hw
          exact ⟨lookupWorkload_replace key after before _ hl, ⟨before, hk.1⟩, hk.2⟩

theorem CreateOrPatch_fixed (r : DockyardsClusterReconciler) (w : World)
    (obj o : dockyardsv1.Workload)
    (f : dockyardsv1.Workload → Except Error dockyardsv1.Workload)
    (hfault : r.fault (Call.getWorkload (client.ObjectKeyFromObject obj.ObjectMeta)) = none)
    (hl : lookupWorkload (client.ObjectKeyFromObject obj.ObjectMeta) w.workloads = some o)
    (hf : f o = .ok o)
    (hk : client.ObjectKeyFromObject o.ObjectMeta = client.ObjectKeyFromObject obj.ObjectMeta) :
    controllerutil.CreateOrPatch r w obj f
      = (.ok (OperationResult.None, o),
          w.record (Call.getWorkload (client.ObjectKeyFromObject obj.ObjectMeta))) := by
  simp [controllerutil.CreateOrPatch, DockyardsClusterReconciler.GetWorkload, hfault, hl,
    controllerutil.mutate, hf, hk]

theorem reconcileRBACWorkload_ok (r : DockyardsClusterReconciler) (k : Constants) (w : World)
    (cluster : dockyardsv1.Cluster)
    (h : (r.reconcileRBACWorkload k w cluster).1 = .ok default) :
    r.GetValueOrDefault k.KeyPublicNamespace "" ≠ ""
    ∧ ∃ res o w1, controllerutil.CreateOrPatch r w (rbacWorkload cluster)
          (mutateFn k cluster (r.GetValueOrDefault k.KeyPublicNamespace "")) = (.ok (res, o), w1)
        ∧ (r.reconcileRBACWorkload k w cluster).2.workloads = w1.workloads := by
  unfold DockyardsClusterReconciler.reconcileRBACWorkload at h ⊢
  by_cases hp : r.GetValueOrDefault k.KeyPublicNamespace "" = ""
  · simp [hp] at h
  · refine ⟨hp, ?_⟩
    simp only [hp, if_false] at h ⊢
    rcases hc : controllerutil.CreateOrPatch r w (rbacWorkload cluster)
        (mutateFn k cluster (r.GetValueOrDefault k.KeyPublicNamespace "")) with ⟨res, w1⟩
    cases res with
    | error e => simp [hc] at h
    | ok v =>
      obtain ⟨res, o⟩ := v
      exact ⟨res, o, w1, rfl, by simp [World.record]⟩

/-! ## Properties of the synthesizer -/

/-- C1: for every cluster, public namespace and prior workload without the
skip-annotation, the bytes the mutation function stores in `Spec.Input` are a
JSON object whose `clusterRoleBindings` is a list of exactly three descriptors,
in the order reader, editor, admin: descriptor i has `bindingName` equal to
"dockyards:" followed by the lower-cased role, `roleRef` of kind "ClusterRole"
named "view", "edit", "cluster-admin", and `subjects` the single group entry
named like the binding. -/
theorem C1_payload_three_bindings (k : Constants) (cluster : dockyardsv1.Cluster) (p : String)
    (workload : dockyardsv1.Workload)
    (h : metav1.HasAnnotation workload.ObjectMeta k.AnnotationSkipRemediation = false) :
    ((storedInput (mutateFn k cluster p workload)).bind parseDocument).bind
        (memberOf "clusterRoleBindings")
      = some (JSONValue.arr [
          .obj [("bindingName", .str ("dockyards:" ++ strings.ToLower k.RoleReader)),
            ("roleRef", .obj [("kind", .str "ClusterRole"), ("name", .str "view")]),
            ("subjects", .arr [.obj [("kind", .str "Group"),
              ("name", .str ("dockyards:" ++ strings.ToLower k.RoleReader))]])],
          .obj [("bindingName", .str ("dockyards:" ++ strings.ToLower k.RoleUser)),
            ("roleRef", .obj [("kind", .str "ClusterRole"), ("name", .str "edit")]),
            ("subjects", .arr [.obj [("kind", .str "Group"),
              ("name", .str ("dockyards:" ++ strings.ToLower k.RoleUser))]])],
          .obj [("bindingName", .str ("dockyards:" ++ strings.ToLower k.RoleSuperUser)),
            ("roleRef", .obj [("kind", .str "ClusterRole"), ("name", .str "cluster-admin")]),
            ("subjects", .arr [.obj [("kind", .str "Group"),
              ("name", .str ("dockyards:" ++ strings.ToLower k.RoleSuperUser))]])]]) := by
  rw [mutateFn_of_not_skip k cluster p workload h]
  simp only [storedInput, Option.map, Option.bind, parseDocument_rbacInput]
  rfl

/-- C1 at the sample cluster and a workload without annotations. -/
theorem C1_payload_three_bindings_witness :
    metav1.HasAnnotation (default : dockyardsv1.Workload).ObjectMeta
        sampleConstants.AnnotationSkipRemediation = false
    ∧ ((storedInput (mutateFn sampleConstants sampleCluster "pub" default)).bind
        parseDocument).bind (memberOf "clusterRoleBindings")
      = some (JSONValue.arr [
          .obj [("bindingName", .str "dockyards:reader"),
            ("roleRef", .obj [("kind", .str "ClusterRole"), ("name", .str "view")]),
            ("subjects", .arr [.obj [("kind", .str "Group"), ("name", .str "dockyards:reader")]])],
          .obj [("bindingName", .str "dockyards:user"),
            ("roleRef", .obj [("kind", .str "ClusterRole"), ("name", .str "edit")]),
            ("subjects", .arr [.obj [("kind", .str "Group"), ("name", .str "dockyards:user")]])],
          .obj [("bindingName", .str "dockyards:superuser"),
            ("roleRef", .obj [("kind", .str "ClusterRole"), ("name", .str "cluster-admin")]),
            ("subjects", .arr [.obj [("kind", .str "Group"),
              ("name", .str "dockyards:superuser")]])]]) :=
  ⟨by decide, C1_payload_three_bindings sampleConstants sampleCluster "pub" default (by decide)⟩

/-- C2, the code at the test's scenario: with no workload in the store the
reconciliation succeeds and stores the workload, and decoding its input gives
three bindings of which the third refers to the role `cluster-admin`; the test
expects the role `admin` there, so the decoded value differs from the expected
one whatever the role prefix is. -/
theorem C2_decoded_input_differs_from_test :
    (sampleReconciler.reconcileRBACWorkload sampleConstants emptyWorld sampleCluster).1
      = .ok default
    ∧ ((lookupWorkload { Namespace := "ns1", Name := "cluster1-rbac" }
          (sampleReconciler.reconcileRBACWorkload sampleConstants emptyWorld
            sampleCluster).2.workloads).bind
        (fun o => o.Spec.Input)).bind (fun j => json.Unmarshal j.Raw)
      = some {
          ClusterRoleBindings := some [
            { BindingName := "dockyards:reader"
              RoleRef := { APIGroup := "", Kind := "ClusterRole", Name := "view" }
              Subjects := some [{
                Kind := "Group", APIGroup := "", Name := "dockyards:reader", Namespace := "" }] },
            { BindingName := "dockyards:user"
              RoleRef := { APIGroup := "", Kind := "ClusterRole", Name := "edit" }
              Subjects := some [{
                Kind := "Group", APIGroup := "", Name := "dockyards:user", Namespace := "" }] },
            { BindingName := "dockyards:superuser"
              RoleRef := { APIGroup := "", Kind := "ClusterRole", Name := "cluster-admin" }
              Subjects := some [{
                Kind := "Group", APIGroup := "", Name := "dockyards:superuser",
                Namespace := "" }] }]
          RoleBindings := none }
    ∧ ∀ RolePrefix : String,
        ((lookupWorkload { Namespace := "ns1", Name := "cluster1-rbac" }
            (sampleReconciler.reconcileRBACWorkload sampleConstants emptyWorld
              sampleCluster).2.workloads).bind
          (fun o => o.Spec.Input)).bind (fun j => json.Unmarshal j.Raw)
        ≠ some (expectedInput RolePrefix sampleConstants) := by
  have h2 : ((lookupWorkload { Namespace := "ns1", Name := "cluster1-rbac" }
          (sampleReconciler.reconcileRBACWorkload sampleConstants emptyWorld
            sampleCluster).2.workloads).bind
        (fun o => o.Spec.Input)).bind (fun j => json.Unmarshal j.Raw)
      = some {
          ClusterRoleBindings := some [
            { BindingName := "dockyards:reader"
              RoleRef := { APIGroup := "", Kind := "ClusterRole", Name := "view" }
              Subjects := some [{
                Kind := "Group", APIGroup := "", Name := "dockyards:reader", Namespace := "" }] },
            { BindingName := "dockyards:user"
              RoleRef := { APIGroup := "", Kind := "ClusterRole", Name := "edit" }
              Subjects := some [{
                Kind := "Group", APIGroup := "", Name := "dockyards:user", Namespace := "" }] },
            { BindingName := "dockyards:superuser"
              RoleRef := { APIGroup := "", Kind := "ClusterRole", Name := "cluster-admin" }
              Subjects := some [{
                Kind := "Group", APIGroup := "", Name := "dockyards:superuser",
                Namespace := "" }] }]
          RoleBindings := none } := by
    have hraw : (lookupWorkload { Namespace := "ns1", Name := "cluster1-rbac" }
          (sampleReconciler.reconcileRBACWorkload sampleConstants emptyWorld
            sampleCluster).2.workloads).bind (fun o => o.Spec.Input)
        = some { Raw := encodeDocument (rbacInput sampleConstants) } := rfl
    have e1 : "dockyards:" ++ strings.ToLower sampleConstants.RoleReader = "dockyards:reader" := by
      decide
    have e2 : "dockyards:" ++ strings.ToLower sampleConstants.RoleUser = "dockyards:user" := by
      decide
    have e3 : "dockyards:" ++ strings.ToLower sampleConstants.RoleSuperUser
        = "dockyards:superuser" := by decide
    rw [hraw, Option.some_bind, Unmarshal_rbacInput, e1, e2, e3]
  refine ⟨rfl, h2, ?_⟩
  intro RolePrefix h
  rw [h2] at h
  have h3 := congrArg (fun v => (v.bind (fun i => i.ClusterRoleBindings)).map
    (fun l => l.map (fun b => b.RoleRef.Name))) h
  have h4 : (some ["view", "edit", "cluster-admin"] : Option (List String))
      = some ["view", "edit", "admin"] := h3
  exact absurd h4 (by decide)

/-- C3: for every cluster, public namespace and workload that carries the
skip-annotation (with any value), the mutation function returns without error
and returns the workload it was given, every field unchanged. -/
theorem C3_skip_annotation_freezes (k : Constants) (cluster : dockyardsv1.Cluster) (p : String)
    (workload : dockyardsv1.Workload) (value : String)
    (h : (k.AnnotationSkipRemediation, value) ∈ workload.ObjectMeta.Annotations) :
    mutateFn k cluster p workload = .ok workload := by
  apply mutateFn_of_skip
  simp only [metav1.HasAnnotation, List.any_eq_true]
  exact ⟨_, h, by simp⟩

/-- C3 at a workload that was edited by hand and then annotated. -/
theorem C3_skip_annotation_freezes_witness :
    (sampleConstants.AnnotationSkipRemediation, "true") ∈
        ({ (default : metav1.ObjectMeta) with
            Name := "cluster1-rbac"
            Labels := [("edited", "by-hand")]
            Annotations := [("dockyards.io/skip-remediation", "true")] }).Annotations
    ∧ mutateFn sampleConstants sampleCluster "pub"
        { ObjectMeta := { (default : metav1.ObjectMeta) with
            Name := "cluster1-rbac"
            Labels := [("edited", "by-hand")]
            Annotations := [("dockyards.io/skip-remediation", "true")] }
          Spec := { (default : dockyardsv1.WorkloadSpec) with TargetNamespace := "elsewhere" } }
      = .ok
        { ObjectMeta := { (default : metav1.ObjectMeta) with
            Name := "cluster1-rbac"
            Labels := [("edited", "by-hand")]
            Annotations := [("dockyards.io/skip-remediation", "true")] }
          Spec := { (default : dockyardsv1.WorkloadSpec) with TargetNamespace := "elsewhere" } } :=
  ⟨by decide, C3_skip_annotation_freezes sampleConstants sampleCluster "pub" _ "true" (by decide)⟩

/-- C4: the mutation function is idempotent: applied to its own result it
returns that result again, with the same bytes in `Spec.Input`.  Consequently,
when a synthesis has succeeded and the store answers the fetch, a second
synthesis for the same cluster finds the fetched and the mutated workload
equal: it makes the fetch and no other call on the store, leaves the store as
it is, logs the operation result "unchanged" and returns without error. -/
theorem C4_mutation_idempotent (r : DockyardsClusterReconciler) (k : Constants) (w : World)
    (cluster : dockyardsv1.Cluster) (p : String) (workload : dockyardsv1.Workload)
    (hfault : r.fault (Call.getWorkload
      { Namespace := cluster.ObjectMeta.Namespace, Name := cluster.ObjectMeta.Name ++ "-rbac" })
        = none)
    (hfirst : (r.reconcileRBACWorkload k w cluster).1 = .ok default) :
    (mutateFn k cluster p workload).bind (mutateFn k cluster p) = mutateFn k cluster p workload
    ∧ storedInput ((mutateFn k cluster p workload).bind (mutateFn k cluster p))
        = storedInput (mutateFn k cluster p workload)
    ∧ r.reconcileRBACWorkload k (r.reconcileRBACWorkload k w cluster).2 cluster
      = (.ok default,
          ((r.reconcileRBACWorkload k w cluster).2.record (Call.getWorkload
            { Namespace := cluster.ObjectMeta.Namespace
              Name := cluster.ObjectMeta.Name ++ "-rbac" })).record
            (Call.logInfo "Reconciled Workload" [
              ("cluster", cluster.ObjectMeta.Name),
              ("workload", cluster.ObjectMeta.Name ++ "-rbac"),
              ("operationResult", "unchanged")])) := by
  refine ⟨mutateFn_idempotent k cluster p workload, ?_, ?_⟩
  · rw [mutateFn_idempotent]
  · obtain ⟨hp, res, o, w1, hc, hw⟩ := reconcileRBACWorkload_ok r k w cluster hfirst
    have hkey : client.ObjectKeyFromObject (rbacWorkload cluster).ObjectMeta
        = { Namespace := cluster.ObjectMeta.Namespace
            Name := cluster.ObjectMeta.Name ++ "-rbac" } := rfl
    obtain ⟨hl, ⟨o0, hf0⟩, hk⟩ := CreateOrPatch_ok r w w1 (rbacWorkload cluster) o res _
      (by rw [hkey]; exact hfault) hc
    have hfix : mutateFn k cluster (r.GetValueOrDefault k.KeyPublicNamespace "") o = .ok o := by
      have := mutateFn_idempotent k cluster (r.GetValueOrDefault k.KeyPublicNamespace "") o0
      rw [hf0] at this
      exact this
    have hsecond := CreateOrPatch_fixed r (r.reconcileRBACWorkload k w cluster).2
      (rbacWorkload cluster) o (mutateFn k cluster (r.GetValueOrDefault k.KeyPublicNamespace ""))
      (by rw [hkey]; exact hfault) (by rw [hw]; exact hl) hfix hk
    have hname : o.ObjectMeta.Name = cluster.ObjectMeta.Name ++ "-rbac" := by
      have := congrArg NamespacedName.Name hk
      exact this
    generalize (r.reconcileRBACWorkload k w cluster).2 = w2 at hsecond ⊢
    unfold DockyardsClusterReconciler.reconcileRBACWorkload
    simp only [hp, if_false, hsecond, hkey, hname]
    rfl

/-- C4 at the sample cluster: the first synthesis creates the workload, the second leaves it. -/
theorem C4_mutation_idempotent_witness :
    sampleReconciler.fault (Call.getWorkload { Namespace := "ns1", Name := "cluster1-rbac" }) = none
    ∧ (sampleReconciler.reconcileRBACWorkload sampleConstants emptyWorld sampleCluster).1
        = .ok default
    ∧ ((mutateFn sampleConstants sampleCluster "pub" default).bind
          (mutateFn sampleConstants sampleCluster "pub")
        = mutateFn sampleConstants sampleCluster "pub" default
      ∧ storedInput ((mutateFn sampleConstants sampleCluster "pub" default).bind
          (mutateFn sampleConstants sampleCluster "pub"))
        = storedInput (mutateFn sampleConstants sampleCluster "pub" default)
      ∧ sampleReconciler.reconcileRBACWorkload sampleConstants
          (sampleReconciler.reconcileRBACWorkload sampleConstants emptyWorld sampleCluster).2
          sampleCluster
        = (.ok default,
            ((sampleReconciler.reconcileRBACWorkload sampleConstants emptyWorld
                sampleCluster).2.record
              (Call.getWorkload { Namespace := "ns1", Name := "cluster1-rbac" })).record
              (Call.logInfo "Reconciled Workload" [
                ("cluster", "cluster1"),
                ("workload", "cluster1-rbac"),
                ("operationResult", "unchanged")]))) :=
  ⟨rfl, rfl, C4_mutation_idempotent sampleReconciler sampleConstants emptyWorld sampleCluster "pub"
    default rfl rfl⟩

/-- C5: for every cluster and prior workload without the skip-annotation,
whatever owner references it held, the mutation function leaves exactly one
owner reference, with the dockyards group/version, kind Cluster, the cluster's
name and the cluster's UID; run again for a cluster of the same name and
another UID, it leaves exactly the reference with the new UID. -/
theorem C5_owner_reference (k : Constants) (cluster : dockyardsv1.Cluster) (p : String)
    (workload : dockyardsv1.Workload) (newUID : String)
    (h : metav1.HasAnnotation workload.ObjectMeta k.AnnotationSkipRemediation = false) :
    (mutated (mutateFn k cluster p workload)).map (fun o => o.ObjectMeta.OwnerReferences)
      = some [{
          APIVersion := k.GroupVersion
          Kind := k.ClusterKind
          Name := cluster.ObjectMeta.Name
          UID := cluster.ObjectMeta.UID
          Controller := none
          BlockOwnerDeletion := none }]
    ∧ (mutated ((mutateFn k cluster p workload).bind
          (mutateFn k { ObjectMeta := { cluster.ObjectMeta with UID := newUID } } p))).map
        (fun o => o.ObjectMeta.OwnerReferences)
      = some [{
          APIVersion := k.GroupVersion
          Kind := k.ClusterKind
          Name := cluster.ObjectMeta.Name
          UID := newUID
          Controller := none
          BlockOwnerDeletion := none }] := by
  rw [mutateFn_of_not_skip k cluster p workload h]
  refine ⟨rfl, ?_⟩
  simp only [Except.bind]
  rw [mutateFn_of_not_skip]
  · rfl
  · exact h

/-- C5 at a workload that holds two stale owner references. -/
theorem C5_owner_reference_witness :
    metav1.HasAnnotation
        ({ (default : metav1.ObjectMeta) with
            Name := "cluster1-rbac"
            OwnerReferences := [
              { APIVersion := "v1", Kind := "Other", Name := "x", UID := "old-1",
                Controller := none, BlockOwnerDeletion := none },
              { APIVersion := "dockyards.io/v1alpha3", Kind := "Cluster", Name := "cluster1",
                UID := "old-2", Controller := some true, BlockOwnerDeletion := none }] })
        sampleConstants.AnnotationSkipRemediation = false
    ∧ ((mutated (mutateFn sampleConstants sampleCluster "pub"
          { ObjectMeta := { (default : metav1.ObjectMeta) with
              Name := "cluster1-rbac"
              OwnerReferences := [
                { APIVersion := "v1", Kind := "Other", Name := "x", UID := "old-1",
                  Controller := none, BlockOwnerDeletion := none },
                { APIVersion := "dockyards.io/v1alpha3", Kind := "Cluster", Name := "cluster1",
                  UID := "old-2", Controller := some true, BlockOwnerDeletion := none }] }
            Spec := default })).map (fun o => o.ObjectMeta.OwnerReferences)
      = some [{
          APIVersion := "dockyards.io/v1alpha3"
          Kind := "Cluster"
          Name := "cluster1"
          UID := "uid-1"
          Controller := none
          BlockOwnerDeletion := none }]
    ∧ (mutated ((mutateFn sampleConstants sampleCluster "pub"
          { ObjectMeta := { (default : metav1.ObjectMeta) with
              Name := "cluster1-rbac"
              OwnerReferences := [
                { APIVersion := "v1", Kind := "Other", Name := "x", UID := "old-1",
                  Controller := none, BlockOwnerDeletion := none },
                { APIVersion := "dockyards.io/v1alpha3", Kind := "Cluster", Name := "cluster1",
                  UID := "old-2", Controller := some true, BlockOwnerDeletion := none }] }
            Spec := default }).bind
          (mutateFn sampleConstants
            { ObjectMeta := { sampleCluster.ObjectMeta with UID := "uid-2" } } "pub"))).map
        (fun o => o.ObjectMeta.OwnerReferences)
      = some [{
          APIVersion := "dockyards.io/v1alpha3"
          Kind := "Cluster"
          Name := "cluster1"
          UID := "uid-2"
          Controller := none
          BlockOwnerDeletion := none }]) :=
  ⟨by decide, C5_owner_reference sampleConstants sampleCluster "pub" _ "uid-2" (by decide)⟩

/-- C6: for every cluster with name n in namespace ns and non-empty configured
public namespace p, `reconcileRBACWorkload` addresses the workload named
n ++ "-rbac" in ns: its first call fetches that identity, every call it makes
on a workload is on that identity, and the workloads under other identities
stay as they are.  For a workload without the skip-annotation the mutation
function sets the labels to exactly the cluster-name label with value n, the
target namespace to "kube-system", the cluster-component flag to true and the
template reference to kind WorkloadTemplate, name "rbac", namespace p. -/
theorem C6_workload_identity_and_fields (r : DockyardsClusterReconciler) (k : Constants)
    (w : World) (cluster : dockyardsv1.Cluster) (workload : dockyardsv1.Workload)
    (hp : r.GetValueOrDefault k.KeyPublicNamespace "" ≠ "")
    (hskip : metav1.HasAnnotation workload.ObjectMeta k.AnnotationSkipRemediation = false) :
    ((r.reconcileRBACWorkload k w cluster).2.calls.drop w.calls.length).head?
      = some (Call.getWorkload
          { Namespace := cluster.ObjectMeta.Namespace, Name := cluster.ObjectMeta.Name ++ "-rbac" })
    ∧ ((r.reconcileRBACWorkload k w cluster).2.calls.drop w.calls.length).all
        (fun c => c.workloadKey == none || c.workloadKey == some
          { Namespace := cluster.ObjectMeta.Namespace
            Name := cluster.ObjectMeta.Name ++ "-rbac" }) = true
    ∧ (r.reconcileRBACWorkload k w cluster).2.workloads.filter
        (fun kv => kv.1 != { Namespace := cluster.ObjectMeta.Namespace
                             Name := cluster.ObjectMeta.Name ++ "-rbac" })
      = w.workloads.filter
        (fun kv => kv.1 != { Namespace := cluster.ObjectMeta.Namespace
                             Name := cluster.ObjectMeta.Name ++ "-rbac" })
    ∧ (mutated (mutateFn k cluster (r.GetValueOrDefault k.KeyPublicNamespace "") workload)).map
        (fun o => (o.ObjectMeta.Labels, o.Spec.TargetNamespace, o.Spec.ClusterComponent,
          o.Spec.WorkloadTemplateRef))
      = some ([(k.LabelClusterName, cluster.ObjectMeta.Name)], "kube-system", true,
          some { APIGroup := none, Kind := k.WorkloadTemplateKind, Name := "rbac",
                 Namespace := some (r.GetValueOrDefault k.KeyPublicNamespace "") }) := by
  obtain ⟨extra, hc, hall, hfilt⟩ := CreateOrPatch_calls r w (rbacWorkload cluster)
    (mutateFn k cluster (r.GetValueOrDefault k.KeyPublicNamespace ""))
  have hkey : client.ObjectKeyFromObject (rbacWorkload cluster).ObjectMeta
      = { Namespace := cluster.ObjectMeta.Namespace
          Name := cluster.ObjectMeta.Name ++ "-rbac" } := rfl
  rw [hkey] at hc hall hfilt
  rw [List.all_eq_true] at hall
  have hrest : (mutated (mutateFn k cluster (r.GetValueOrDefault k.KeyPublicNamespace "")
      workload)).map (fun o => (o.ObjectMeta.Labels, o.Spec.TargetNamespace,
        o.Spec.ClusterComponent, o.Spec.WorkloadTemplateRef))
      = some ([(k.LabelClusterName, cluster.ObjectMeta.Name)], "kube-system", true,
          some { APIGroup := none, Kind := k.WorkloadTemplateKind, Name := "rbac",
                 Namespace := some (r.GetValueOrDefault k.KeyPublicNamespace "") }) := by
    rw [mutateFn_of_not_skip _ _ _ _ hskip]
    rfl
  unfold DockyardsClusterReconciler.reconcileRBACWorkload
  simp only [hp, if_false]
  rcases hcp : controllerutil.CreateOrPatch r w (rbacWorkload cluster)
      (mutateFn k cluster (r.GetValueOrDefault k.KeyPublicNamespace "")) with ⟨res, w1⟩
  rw [hcp] at hc hfilt
  simp only at hc hfilt
  cases res with
  | error e =>
    refine ⟨?_, ?_, hfilt, hrest⟩
    · simp [hc]
    · simp only [hc, List.drop_left, List.all_eq_true]
      intro c hcmem
      rcases List.mem_cons.1 hcmem with h | h
      · subst h
        simp [Call.workloadKey]
      · have := hall c h
        simp_all
  | ok v =>
    obtain ⟨op, o⟩ := v
    refine ⟨?_, ?_, by simpa [World.record] using hfilt, hrest⟩
    · simp [World.record, hc]
    · simp only [World.record, hc, List.append_assoc, List.drop_left, List.all_eq_true]
      intro c hcmem
      rcases List.mem_append.1 hcmem with h | h
      · rcases List.mem_cons.1 h with h | h
        · subst h
          simp [Call.workloadKey]
        · have := hall c h
          simp_all
      · simp only [List.mem_singleton] at h
        subst h
        simp [Call.workloadKey]

/-- C6 at the sample cluster `cluster1` in `ns1` with public namespace `pub`. -/
theorem C6_workload_identity_and_fields_witness :
    sampleReconciler.GetValueOrDefault sampleConstants.KeyPublicNamespace "" ≠ ""
    ∧ metav1.HasAnnotation (default : dockyardsv1.Workload).ObjectMeta
        sampleConstants.AnnotationSkipRemediation = false
    ∧ (((sampleReconciler.reconcileRBACWorkload sampleConstants emptyWorld
          sampleCluster).2.calls.drop emptyWorld.calls.length).head?
        = some (Call.getWorkload { Namespace := "ns1", Name := "cluster1-rbac" })
      ∧ ((sampleReconciler.reconcileRBACWorkload sampleConstants emptyWorld
          sampleCluster).2.calls.drop emptyWorld.calls.length).all
          (fun c => c.workloadKey == none || c.workloadKey == some
            { Namespace := "ns1", Name := "cluster1-rbac" }) = true
      ∧ (sampleReconciler.reconcileRBACWorkload sampleConstants emptyWorld
          sampleCluster).2.workloads.filter
          (fun kv => kv.1 != { Namespace := "ns1", Name := "cluster1-rbac" })
        = emptyWorld.workloads.filter
          (fun kv => kv.1 != { Namespace := "ns1", Name := "cluster1-rbac" })
      ∧ (mutated (mutateFn sampleConstants sampleCluster "pub" default)).map
          (fun o => (o.ObjectMeta.Labels, o.Spec.TargetNamespace, o.Spec.ClusterComponent,
            o.Spec.WorkloadTemplateRef))
        = some ([("dockyards.io/cluster-name", "cluster1")], "kube-system", true,
            some { APIGroup := none, Kind := "WorkloadTemplate", Name := "rbac",
                   Namespace := some "pub" })) :=
  ⟨by decide, by decide, C6_workload_identity_and_fields sampleReconciler sampleConstants
    emptyWorld sampleCluster default (by decide) (by decide)⟩

/-- C7: for every cluster and state, when the configured public namespace is
the empty string, `reconcileRBACWorkload` returns an error and leaves the
state as it was: no call is made on the store, so no workload is fetched,
created or patched. -/
theorem C7_missing_config_fails (r : DockyardsClusterReconciler) (k : Constants) (w : World)
    (cluster : dockyardsv1.Cluster)
    (h : r.GetValueOrDefault k.KeyPublicNamespace "" = "") :
    r.reconcileRBACWorkload k w cluster = (.error (.noConfigValue k.KeyPublicNamespace), w) := by
  simp [DockyardsClusterReconciler.reconcileRBACWorkload, h]

/-- C7 at a reconciler whose configuration holds no value at all. -/
theorem C7_missing_config_fails_witness :
    ({ sampleReconciler with config := [] }).GetValueOrDefault
        sampleConstants.KeyPublicNamespace "" = ""
    ∧ ({ sampleReconciler with config := [] }).reconcileRBACWorkload sampleConstants emptyWorld
        sampleCluster = (.error (.noConfigValue "publicNamespace"), emptyWorld) :=
  ⟨by decide, C7_missing_config_fails _ sampleConstants emptyWorld sampleCluster (by decide)⟩

/-! ## Properties of Reconcile -/

/-- C8: for a fetched cluster that is being deleted, or for which the resolver
returns no owning organization, `Reconcile` leaves the workloads as they are
and makes no call on a workload, so the synthesizer runs only for a cluster
that is not being deleted and has an owner.  When the cluster is being deleted
the result is the empty result without error and the only call is the fetch:
the resolver is not consulted.  Otherwise the result is the resolver's error,
or the empty result without error when the resolver succeeds with no owner,
and the calls are the fetch, the resolution and, on success, the log line. -/
theorem C8_deleted_or_orphan_is_noop (r : DockyardsClusterReconciler) (k : Constants) (w : World)
    (req : NamespacedName) (cluster : dockyardsv1.Cluster)
    (hget : r.getCluster req = .ok cluster)
    (hguard : metav1.IsZero cluster.ObjectMeta.DeletionTimestamp = false
      ∨ ∀ org, r.getOwnerOrganization cluster ≠ .ok (some org)) :
    (r.Reconcile k w req).1
      = (if metav1.IsZero cluster.ObjectMeta.DeletionTimestamp then
          (r.getOwnerOrganization cluster).map (fun _ => default)
        else .ok default)
    ∧ (r.Reconcile k w req).2.workloads = w.workloads
    ∧ (r.Reconcile k w req).2.calls.filter Call.isMutation = w.calls.filter Call.isMutation
    ∧ (r.Reconcile k w req).2.calls = w.calls ++
        (if metav1.IsZero cluster.ObjectMeta.DeletionTimestamp then
          Call.getCluster req :: Call.getOwnerOrganization cluster ::
            (if (r.getOwnerOrganization cluster).toBool then
              [Call.logInfo "ignoring cluster without owner organization" []]
            else [])
        else [Call.getCluster req]) := by
  cases hz : metav1.IsZero cluster.ObjectMeta.DeletionTimestamp
  · simp [DockyardsClusterReconciler.Reconcile, hget, client.IgnoreNotFound, hz, World.record,
      Call.isMutation]
  · have hno : ∀ org, r.getOwnerOrganization cluster ≠ .ok (some org) := by
      rcases hguard with h | h
      · rw [hz] at h
        exact absurd h (by decide)
      · exact h
    cases ho : r.getOwnerOrganization cluster with
    | error e =>
      simp [DockyardsClusterReconciler.Reconcile, hget, client.IgnoreNotFound, hz, ho,
        World.record, Call.isMutation, Except.map, Except.toBool]
    | ok o =>
      cases o with
      | none =>
        simp [DockyardsClusterReconciler.Reconcile, hget, client.IgnoreNotFound, hz, ho,
          World.record, Call.isMutation, Except.map, Except.toBool]
      | some org => exact absurd ho (hno org)

/-- C8 at a cluster that is being deleted and has an owner: the only call is the fetch. -/
theorem C8_deleted_or_orphan_is_noop_witness :
    deletingReconciler.getCluster { Namespace := "ns1", Name := "cluster1" } = .ok deletedCluster
    ∧ metav1.IsZero deletedCluster.ObjectMeta.DeletionTimestamp = false
    ∧ ((deletingReconciler.Reconcile sampleConstants emptyWorld
          { Namespace := "ns1", Name := "cluster1" }).1 = .ok default
      ∧ (deletingReconciler.Reconcile sampleConstants emptyWorld
          { Namespace := "ns1", Name := "cluster1" }).2.workloads = []
      ∧ (deletingReconciler.Reconcile sampleConstants emptyWorld
          { Namespace := "ns1", Name := "cluster1" }).2.calls.filter Call.isMutation = []
      ∧ (deletingReconciler.Reconcile sampleConstants emptyWorld
          { Namespace := "ns1", Name := "cluster1" }).2.calls
        = [Call.getCluster { Namespace := "ns1", Name := "cluster1" }]) :=
  ⟨rfl, by decide, C8_deleted_or_orphan_is_noop deletingReconciler sampleConstants emptyWorld
    { Namespace := "ns1", Name := "cluster1" } deletedCluster rfl (Or.inl (by decide))⟩

/-- C9, the code when the fetch reports not-found: `Reconcile` goes on with the
zero-valued cluster.  It consults the resolver and returns the resolver's
error; and when the resolver returns an organization it runs the synthesizer,
which creates a workload named `-rbac` in the empty namespace. -/
theorem C9_not_found_falls_through :
    goneFailingReconciler.Reconcile sampleConstants emptyWorld { Namespace := "ns1", Name := "gone" }
      = (.error (.api "context canceled"),
          { workloads := []
            calls := [Call.getCluster { Namespace := "ns1", Name := "gone" },
              Call.getOwnerOrganization default] })
    ∧ (goneOwnedReconciler.Reconcile sampleConstants emptyWorld
        { Namespace := "ns1", Name := "gone" }).1 = .ok default
    ∧ (goneOwnedReconciler.Reconcile sampleConstants emptyWorld
        { Namespace := "ns1", Name := "gone" }).2.workloads.map (fun kv => kv.1)
      = [{ Namespace := "", Name := "-rbac" }]
    ∧ (goneOwnedReconciler.Reconcile sampleConstants emptyWorld
        { Namespace := "ns1", Name := "gone" }).2.calls.map Call.isMutation
      = [false, false, false, true, false] := by
  refine ⟨rfl, rfl, by decide, by decide⟩

/-! ## The shape of the payload -/

/-- C10 as stated fails at the sample cluster: the stored object has no
`roleBindings` key, so it does not hold an empty array under it. -/
theorem C10_no_roleBindings_key :
    ¬ ∃ doc,
      (storedInput (mutateFn sampleConstants sampleCluster "pub" default)).bind parseDocument
        = some doc
      ∧ (∃ vs, memberOf "clusterRoleBindings" doc = some (JSONValue.arr vs))
      ∧ memberOf "roleBindings" doc = some (JSONValue.arr []) := by
  rintro ⟨doc, hdoc, -, hrole⟩
  have hskip : metav1.HasAnnotation (default : dockyardsv1.Workload).ObjectMeta
      sampleConstants.AnnotationSkipRemediation = false := by decide
  rw [storedInput_mutateFn sampleConstants sampleCluster "pub" default hskip, Option.some_bind,
    parseDocument_rbacInput, Option.some.injEq] at hdoc
  subst hdoc
  have hnone : memberOf "roleBindings" (rbacInput sampleConstants) = none := rfl
  rw [hnone] at hrole
  exact Option.noConfusion hrole

/-- C10 amended: for every cluster, public namespace and prior workload without
the skip-annotation, the stored JSON object has exactly one top-level key,
`clusterRoleBindings`, which holds an array of three elements; it has no
`roleBindings` key, and decoding it as `RBACWorkloadInput` leaves
`RoleBindings` nil. -/
theorem C10_single_top_level_key (k : Constants) (cluster : dockyardsv1.Cluster) (p : String)
    (workload : dockyardsv1.Workload)
    (h : metav1.HasAnnotation workload.ObjectMeta k.AnnotationSkipRemediation = false) :
    ((storedInput (mutateFn k cluster p workload)).bind parseDocument).map keysOf
      = some ["clusterRoleBindings"]
    ∧ (((storedInput (mutateFn k cluster p workload)).bind parseDocument).bind
        (memberOf "clusterRoleBindings")).bind arrayLength = some 3
    ∧ ((storedInput (mutateFn k cluster p workload)).bind parseDocument).bind
        (memberOf "roleBindings") = none
    ∧ ((storedInput (mutateFn k cluster p workload)).bind json.Unmarshal).map
        (fun v => v.RoleBindings) = some none := by
  rw [storedInput_mutateFn k cluster p workload h, Option.some_bind, Option.some_bind,
    parseDocument_rbacInput, Unmarshal_rbacInput]
  exact ⟨rfl, rfl, rfl, rfl⟩

/-- C10 amended, at the sample cluster and a workload without annotations. -/
theorem C10_single_top_level_key_witness :
    metav1.HasAnnotation (default : dockyardsv1.Workload).ObjectMeta
        sampleConstants.AnnotationSkipRemediation = false
    ∧ (((storedInput (mutateFn sampleConstants sampleCluster "pub" default)).bind
          parseDocument).map keysOf = some ["clusterRoleBindings"]
      ∧ (((storedInput (mutateFn sampleConstants sampleCluster "pub" default)).bind
          parseDocument).bind (memberOf "clusterRoleBindings")).bind arrayLength = some 3
      ∧ ((storedInput (mutateFn sampleConstants sampleCluster "pub" default)).bind
          parseDocument).bind (memberOf "roleBindings") = none
      ∧ ((storedInput (mutateFn sampleConstants sampleCluster "pub" default)).bind
          json.Unmarshal).map (fun v => v.RoleBindings) = some none) :=
  ⟨by decide, C10_single_top_level_key sampleConstants sampleCluster "pub" default (by decide)⟩

end DockyardsRBAC
